import Mathlib

/-!
# host_roble dashboard: session and project-list layer

A shallow embedding of `src/dashboard/src/js/app.js`.

* JavaScript values are a small inductive type (`JSVal`); token variables range over
  `Tok` (absent field, `null`, or a string).
* The module-level variables of `app.js`, `localStorage`, the interval timers of the
  page and the log of requests handed to `fetch` form one record, `AppState`.
* Every `async` function is split at its `await fetch(...)`: the part before the await
  builds the request, the part after it is a function of the answer.
-/

namespace HostRoble

/-! ## JavaScript values -/

/-- A JavaScript value as it can sit in a field of a parsed JSON answer: a missing
field reads as `undefined`; numbers of a JSON text are finite, hence rationals. -/
inductive JSVal where
  | undefined
  | null
  | bool (b : Bool)
  | num (q : ℚ)
  | str (s : String)
  | obj (id : Nat)
  deriving DecidableEq

/-- JavaScript truthiness (`ToBoolean`). -/
def JSVal.truthy : JSVal → Bool
  | .undefined => false
  | .null => false
  | .bool b => b
  | .num q => decide (q ≠ 0)
  | .str s => decide (s ≠ "")
  | .obj _ => true

/-- The JavaScript expression `a || b`. -/
def JSVal.or (a b : JSVal) : JSVal := if a.truthy then a else b

/-- The JavaScript expression `v === 'lit'` for a string literal. -/
def JSVal.eqStr (v : JSVal) (lit : String) : Bool :=
  match v with
  | .str s => decide (s = lit)
  | _ => false

/-- The nullish-coalescing expression `a ?? b`, which `app.js` does not use; it is the
reading of "present" that the specification gives to the effective status. -/
def JSVal.nullish (a b : JSVal) : JSVal :=
  match a with
  | .undefined => b
  | .null => b
  | _ => a

/-! ## Projects and their derived display -/

/-- One element of `data.projects`. `inactive_minutes` is a JSON number when the field
is there (`none` when it is missing). -/
structure Project where
  _id : JSVal := .undefined
  nombre : JSVal := .undefined
  repo_url : JSVal := .undefined
  status : JSVal := .undefined
  real_status : JSVal := .undefined
  url : JSVal := .undefined
  url_direct : JSVal := .undefined
  subdomain : JSVal := .undefined
  external_port : JSVal := .undefined
  container_name : JSVal := .undefined
  created_at : JSVal := .undefined
  inactive_minutes : Option ℚ := none
  deriving DecidableEq

/-- The constant `status` of `displayProjects` (line 299):
`project.real_status || project.status`. -/
def displayStatus (project : Project) : JSVal := project.real_status.or project.status

/-- The constant `status` of the two filters of `updateStats` (lines 352 and 356):
`p.real_status || p.status`. -/
def statsStatus (p : Project) : JSVal := p.real_status.or p.status

/-- The constant `statusClass` of `displayProjects` (lines 301-305). -/
def statusClass (status : JSVal) : String :=
  if status.eqStr "running" then "status-running"
  else if status.eqStr "exited" || status.eqStr "stopped" then "status-stopped"
  else if status.eqStr "building" then "status-building"
  else if status.eqStr "pending" then "status-pending"
  else if status.eqStr "not_found" then "status-error"
  else "status-error"

/-- The constant `statusText` of `displayProjects` (lines 308-312). -/
def statusText (status : JSVal) : JSVal :=
  if status.eqStr "running" then .str "corriendo"
  else if status.eqStr "exited" then .str "detenido"
  else if status.eqStr "building" then .str "construyendo"
  else if status.eqStr "pending" then .str "pendiente"
  else if status.eqStr "not_found" then .str "no encontrado"
  else status

/-- The constant `inactiveMinutes` (line 320): `project.inactive_minutes || 0`. -/
def inactiveMinutes (project : Project) : ℚ :=
  match project.inactive_minutes with
  | some q => if q ≠ 0 then q else 0
  | none => 0

/-- The text of the idle-shutdown warning (line 321). -/
def idleWarningText : String := " ⚠️ Se apagará pronto"

/-- The constant `inactiveWarning` (line 321). -/
def inactiveWarning (project : Project) : String :=
  if inactiveMinutes project > 20 then idleWarningText else ""

/-- The two holes of the paragraph `Inactivo: ... min...` (line 322). -/
structure InactiveLine where
  minutes : ℚ
  warning : String
  deriving DecidableEq

/-- The constant `inactiveDisplay` (line 322); `none` is the empty string. -/
def inactiveDisplay (project : Project) : Option InactiveLine :=
  if (displayStatus project).eqStr "running" then
    some ⟨inactiveMinutes project, inactiveWarning project⟩
  else none

/-- The holes of the card template of `displayProjects` (lines 324-344), in the order
of the template; an optional block is `none` when its guard is falsy. -/
structure ProjectCard where
  nombre : JSVal
  statusClass : String
  statusText : JSVal
  repo_url : JSVal
  subdomainLink : Option (JSVal × JSVal × JSVal)
  urlDirectLink : Option (JSVal × JSVal)
  puerto : Option JSVal
  inactiveDisplay : Option InactiveLine
  creado : String
  abrirSitio : Option (JSVal × JSVal)
  actionId : JSVal
  deriving DecidableEq

/-- The body of the `map` callback of `displayProjects`. The host function
`new Date(x).toLocaleString()` is the argument `toLocaleString`. -/
def renderCard (toLocaleString : JSVal → String) (project : Project) : ProjectCard :=
  { nombre := project.nombre
    statusClass := statusClass (displayStatus project)
    statusText := statusText (displayStatus project)
    repo_url := project.repo_url
    subdomainLink :=
      if project.subdomain.truthy then
        some (project.url, project.container_name, project.subdomain)
      else none
    urlDirectLink :=
      if project.url_direct.truthy then some (project.url_direct, project.container_name)
      else none
    puerto := if project.external_port.truthy then some project.external_port else none
    inactiveDisplay := inactiveDisplay project
    creado := toLocaleString project.created_at
    abrirSitio :=
      if project.url.truthy then some (project.url, project.container_name) else none
    actionId := project._id }

/-- What `displayProjects` writes into `#projects-list`. -/
inductive ProjectsView where
  | emptyState
  | cards (items : List ProjectCard)
  deriving DecidableEq

/-- The function `displayProjects` on an array `projects` (lines 289-346). -/
def displayProjects (toLocaleString : JSVal → String) (projects : List Project) :
    ProjectsView :=
  if projects.length = 0 then .emptyState
  else .cards (projects.map (renderCard toLocaleString))

/-- The cards on screen after `displayProjects`; the empty-state banner has none. -/
def ProjectsView.items : ProjectsView → List ProjectCard
  | .emptyState => []
  | .cards items => items

/-- The card carries the idle-shutdown warning. -/
def ProjectCard.hasIdleWarning (c : ProjectCard) : Bool :=
  match c.inactiveDisplay with
  | some line => decide (line.warning = idleWarningText)
  | none => false

/-- The three numbers `updateStats` writes into the page. -/
structure Stats where
  total : Nat
  running : Nat
  stopped : Nat
  deriving DecidableEq

/-- The function `updateStats` on an array `projects` (lines 348-363). -/
def updateStats (projects : List Project) : Stats :=
  { total := projects.length
    running := (projects.filter fun p => (statsStatus p).eqStr "running").length
    stopped := (projects.filter fun p =>
      (statsStatus p).eqStr "stopped" || (statsStatus p).eqStr "exited").length }

/-- The number of cards whose status label is the given string. -/
def labelledCount (label : String) (v : ProjectsView) : Nat :=
  (v.items.filter fun c => decide (c.statusText = JSVal.str label)).length

/-! ## Tokens, storage, requests and answers -/

/-- A value of the variables `accessToken` and `refreshToken`: a field missing from an
answer, `null`, or a string. -/
inductive Tok where
  | undefined
  | null
  | str (s : String)
  deriving DecidableEq

/-- JavaScript truthiness of a token variable. -/
def Tok.truthy : Tok → Bool
  | .str s => decide (s ≠ "")
  | _ => false

/-- The string conversion applied by a template literal and by `localStorage.setItem`. -/
def Tok.toString : Tok → String
  | .undefined => "undefined"
  | .null => "null"
  | .str s => s

/-- The token is there: it is a string, not `null` and not `undefined`. -/
def Tok.present : Tok → Bool
  | .str _ => true
  | _ => false

/-- The contents of `localStorage`: keys with their string values. -/
abbrev Storage := List (String × String)

/-- The call `localStorage.getItem(key)`; `none` is `null`. -/
def Storage.getItem (st : Storage) (key : String) : Option String :=
  (st.find? fun kv => decide (kv.1 = key)).map fun kv => kv.2

/-- The call `localStorage.removeItem(key)`. -/
def Storage.removeItem (st : Storage) (key : String) : Storage :=
  st.filter fun kv => decide (kv.1 ≠ key)

/-- The call `localStorage.setItem(key, value)`. -/
def Storage.setItem (st : Storage) (key value : String) : Storage :=
  (key, value) :: st.removeItem key

/-- The object given to `JSON.stringify` for the body of a request. -/
inductive ReqBody where
  | loginBody (email password : String)
  | signupBody (email password name : String)
  | refreshBody (refreshToken : Tok)
  | createBody (nombre repo_url : String)
  deriving DecidableEq

/-- The arguments of one call of `fetch`. -/
structure Request where
  url : String
  method : String := "GET"
  headers : List (String × String) := []
  body : Option ReqBody := none
  deriving DecidableEq

/-- The object `data` read from an answer by `response.json()`; a field that the
answer lacks is `undefined`. `projects` is `none` when the value is not an array (a
missing field, `null`, a number, a string, an object); `projectsLength0` says, for such
a value, whether its `length` is 0, as for the empty string or the object `length: 0`. -/
structure RespData where
  accessToken : Tok := .undefined
  refreshToken : Tok := .undefined
  user : JSVal := .undefined
  projects : Option (List Project) := none
  projectsLength0 : Bool := false
  error : JSVal := .undefined
  deriving DecidableEq

/-- How an awaited `fetch` ends: the promise rejects (no answer), or an answer with a
status arrives; `body = none` means that `response.json()` rejects. -/
inductive Response where
  | networkError
  | http (status : Nat) (body : Option RespData)
  deriving DecidableEq

/-- The property `response.ok`: a status from 200 to 299. -/
def statusOk (status : Nat) : Bool := decide (200 ≤ status) && decide (status ≤ 299)

/-- The constant `API_URL` (line 2). -/
def API_URL : String := "http://localhost:5000/api"

/-! ## The state of the page -/

/-- An awaited `fetch` of `app.js`, named after the function that resumes when the
answer is there. -/
inductive Pending where
  | verifyAndLoadSession
  | handleLogin
  | handleSignup
  | logout
  | loadProjects
  | handleCreateProject
  | deleteProject
  | rebuildProject
  | refreshAccessToken
  | trackActivity
  deriving DecidableEq

/-- Which of the two sections is on screen. -/
inductive Screen where
  | initial
  | auth
  | dashboard
  deriving DecidableEq

/-- The module variables of `app.js` (lines 5-9) and the parts of the browser they act
on: `localStorage`, the interval timers that are alive, the page, the requests given
to `fetch` so far, and the fetches still awaited. -/
structure AppState where
  currentUser : JSVal := .null
  accessToken : Tok := .null
  refreshToken : Tok := .null
  projects : Option (List Project) := some []
  autoRefreshInterval : Option Nat := none
  localStorage : Storage := []
  intervals : List Nat := []
  timerCount : Nat := 0
  screen : Screen := .initial
  projectsView : ProjectsView := .emptyState
  stats : Stats := ⟨0, 0, 0⟩
  messages : List (JSVal × String) := []
  sent : List Request := []
  awaiting : List Pending := []
  deriving DecidableEq

/-- The function `showMessage` (lines 463-474). -/
def showMessage (message : JSVal) (type : String) (s : AppState) : AppState :=
  { s with messages := s.messages ++ [(message, type)] }

/-- The function `showAuthSection` (lines 417-421). -/
def showAuthSection (s : AppState) : AppState := { s with screen := .auth }

/-- The function `clearSession` (lines 167-173). -/
def clearSession (s : AppState) : AppState :=
  { s with
    accessToken := .null
    refreshToken := .null
    currentUser := .null
    localStorage := (s.localStorage.removeItem "accessToken").removeItem "refreshToken" }

/-- The host call `clearInterval(id)`. -/
def clearInterval (id : Nat) (s : AppState) : AppState :=
  { s with intervals := s.intervals.filter fun t => decide (t ≠ id) }

/-- An `await fetch(req)`: the request leaves and the function is suspended. -/
def fetchStart (req : Request) (k : Pending) (s : AppState) : AppState :=
  { s with sent := s.sent ++ [req], awaiting := s.awaiting ++ [k] }

/-- The header `Authorization: Bearer ...` built from the variable `accessToken`. -/
def bearer (s : AppState) : String × String :=
  ("Authorization", "Bearer " ++ s.accessToken.toString)

/-- The header `Content-Type: application/json`. -/
def jsonContent : String × String := ("Content-Type", "application/json")

/-- The request of `loadProjects` (lines 179-183). -/
def loadProjectsRequest (s : AppState) : Request :=
  { url := API_URL ++ "/projects/", headers := [bearer s] }

/-- The function `loadProjects` up to its `await fetch` (lines 177-183). -/
def loadProjects (s : AppState) : AppState :=
  fetchStart (loadProjectsRequest s) .loadProjects s

/-- The request of `refreshAccessToken` (lines 385-391). -/
def refreshAccessTokenRequest (s : AppState) : Request :=
  { url := API_URL ++ "/auth/refresh", method := "POST", headers := [jsonContent],
    body := some (.refreshBody s.refreshToken) }

/-- The function `refreshAccessToken` up to its `await fetch` (lines 383-391). -/
def refreshAccessToken (s : AppState) : AppState :=
  fetchStart (refreshAccessTokenRequest s) .refreshAccessToken s

/-- The function `refreshAccessToken` after its `await fetch` (lines 393-405). -/
def refreshAccessTokenResume (r : Response) (s : AppState) : AppState :=
  match r with
  | .networkError => showAuthSection (clearSession s)
  | .http status body =>
    if statusOk status then
      match body with
      | none => showAuthSection (clearSession s)
      | some data =>
        { s with
          accessToken := data.accessToken
          localStorage := s.localStorage.setItem "accessToken" data.accessToken.toString }
    else showAuthSection (clearSession s)

/-- The `catch` block of `loadProjects` (lines 197-200). -/
def loadProjectsCatch (s : AppState) : AppState :=
  showMessage (.str "Error de conexión al cargar proyectos") "error" s

/-- The function `loadProjects` after its `await fetch` (lines 185-200). On a 401 it
calls `refreshAccessToken`, which suspends at once; the statement after that await,
`loadProjects()`, is in `resume`. With a `projects` that is not an array,
`displayProjects` throws at `projects.length` or `projects.map` before it writes
anything, unless the value has `length` 0: then it writes the empty-state banner (lines
292-295) and `updateStats` throws at `projects.filter` (line 351), before it writes. -/
def loadProjectsResume (toLocaleString : JSVal → String) (r : Response) (s : AppState) :
    AppState :=
  match r with
  | .networkError => loadProjectsCatch s
  | .http status body =>
    if statusOk status then
      match body with
      | none => loadProjectsCatch s
      | some data =>
        let s1 := { s with projects := data.projects }
        match s1.projects with
        | none =>
          if data.projectsLength0 then loadProjectsCatch { s1 with projectsView := .emptyState }
          else loadProjectsCatch s1
        | some ps =>
          { s1 with projectsView := displayProjects toLocaleString ps, stats := updateStats ps }
    else if status = 401 then refreshAccessToken s
    else showMessage (.str "Error al cargar proyectos") "error" s

/-- The function `showDashboard` (lines 423-443). -/
def showDashboard (s : AppState) : AppState :=
  let s1 := { s with screen := .dashboard }
  let s2 := loadProjects s1
  let s3 :=
    match s2.autoRefreshInterval with
    | some id => if id ≠ 0 then clearInterval id s2 else s2
    | none => s2
  let id := s3.timerCount + 1
  { s3 with intervals := s3.intervals ++ [id], timerCount := id, autoRefreshInterval := some id }

/-- The function `verifyAndLoadSession` up to its `await fetch` (lines 28-34). -/
def verifyAndLoadSession (s : AppState) : AppState :=
  fetchStart { url := API_URL ++ "/auth/me", headers := [bearer s] } .verifyAndLoadSession s

/-- The function `verifyAndLoadSession` after its `await fetch` (lines 36-49). -/
def verifyAndLoadSessionResume (r : Response) (s : AppState) : AppState :=
  match r with
  | .networkError => showAuthSection (clearSession s)
  | .http status body =>
    if statusOk status then
      match body with
      | none => showAuthSection (clearSession s)
      | some data => showDashboard { s with currentUser := data.user }
    else showAuthSection (clearSession s)

/-- The `DOMContentLoaded` handler (lines 14-26). -/
def domContentLoaded (s : AppState) : AppState :=
  match s.localStorage.getItem "accessToken", s.localStorage.getItem "refreshToken" with
  | some savedToken, some savedRefresh =>
    if savedToken ≠ "" ∧ savedRefresh ≠ "" then
      verifyAndLoadSession { s with accessToken := .str savedToken, refreshToken := .str savedRefresh }
    else showAuthSection s
  | _, _ => showAuthSection s

/-- The `catch` block shared in wording by `handleLogin` and `handleSignup`. -/
def connectionError (s : AppState) : AppState :=
  showMessage (.str "Error de conexión. Verifica que el servidor esté activo.") "error" s

/-- The function `handleLogin` up to its `await fetch` (lines 62-77). -/
def handleLogin (email password : String) (s : AppState) : AppState :=
  fetchStart
    { url := API_URL ++ "/auth/login", method := "POST", headers := [jsonContent],
      body := some (.loginBody email password) }
    .handleLogin (showMessage (.str "Iniciando sesión...") "success" s)

/-- The function `handleLogin` after its `await fetch` (lines 79-98). -/
def handleLoginResume (r : Response) (s : AppState) : AppState :=
  match r with
  | .networkError => connectionError s
  | .http _ none => connectionError s
  | .http status (some data) =>
    if statusOk status then
      let s1 :=
        { s with
          accessToken := data.accessToken
          refreshToken := data.refreshToken
          currentUser := data.user }
      let s2 :=
        { s1 with
          localStorage :=
            (s1.localStorage.setItem "accessToken" s1.accessToken.toString).setItem
              "refreshToken" s1.refreshToken.toString }
      showDashboard (showMessage (.str "¡Bienvenido! Sesión iniciada correctamente") "success" s2)
    else showMessage (data.error.or (.str "Error al iniciar sesión")) "error" s

/-- The function `handleSignup` up to its `await fetch` (lines 101-124). The form
values are the arguments. -/
def handleSignup (name email password confirm : String) (s : AppState) : AppState :=
  if password ≠ confirm then showMessage (.str "Las contraseñas no coinciden") "error" s
  else
    fetchStart
      { url := API_URL ++ "/auth/signup", method := "POST", headers := [jsonContent],
        body := some (.signupBody email password name) }
      .handleSignup (showMessage (.str "Registrando usuario...") "success" s)

/-- The function `handleSignup` after its `await fetch` (lines 126-140). On a 2xx
answer the success message is shown and the form is reset; then `showAuthTab('login')`
reads `event.target` of the global `event` (line 55), which is undefined once the
submit event has been handled, so it throws and the `catch` block shows the connection
error; the tab is not switched. -/
def handleSignupResume (r : Response) (s : AppState) : AppState :=
  match r with
  | .networkError => connectionError s
  | .http _ none => connectionError s
  | .http status (some data) =>
    if statusOk status then
      connectionError
        (showMessage (.str "¡Registro exitoso! Ya puedes iniciar sesión") "success" s)
    else showMessage (data.error.or (.str "Error al registrar usuario")) "error" s

/-- The `finally` block of `logout` (lines 155-164). -/
def logoutFinally (s : AppState) : AppState :=
  let s1 :=
    match s.autoRefreshInterval with
    | some id => if id ≠ 0 then { clearInterval id s with autoRefreshInterval := none } else s
    | none => s
  showMessage (.str "Sesión cerrada correctamente") "success" (showAuthSection (clearSession s1))

/-- The function `logout` up to its `await fetch` (lines 143-152); without an access
token nothing is awaited and the `finally` block runs at once. -/
def logout (s : AppState) : AppState :=
  if s.accessToken.truthy then
    fetchStart { url := API_URL ++ "/auth/logout", method := "POST", headers := [bearer s] }
      .logout s
  else logoutFinally s

/-- The function `logout` after its `await fetch` (lines 153-164): the answer is not
read, a rejected fetch is only logged. -/
def logoutResume (_r : Response) (s : AppState) : AppState := logoutFinally s

/-- The function `handleCreateProject` up to its `await fetch` (lines 203-219). -/
def handleCreateProject (nombre repo_url : String) (s : AppState) : AppState :=
  fetchStart
    { url := API_URL ++ "/projects/", method := "POST", headers := [jsonContent, bearer s],
      body := some (.createBody nombre repo_url) }
    .handleCreateProject (showMessage (.str "Creando proyecto...") "success" s)

/-- The function `handleCreateProject` after its `await fetch` (lines 221-234). -/
def handleCreateProjectResume (r : Response) (s : AppState) : AppState :=
  match r with
  | .networkError => showMessage (.str "Error de conexión al crear proyecto") "error" s
  | .http _ none => showMessage (.str "Error de conexión al crear proyecto") "error" s
  | .http status (some data) =>
    if statusOk status then
      loadProjects
        (showMessage (.str "¡Proyecto creado! El despliegue iniciará pronto") "success" s)
    else showMessage (data.error.or (.str "Error al crear proyecto")) "error" s

/-- The function `deleteProject` up to its `await fetch` (lines 237-248); `confirmed`
is the answer of the `confirm` dialog, whose text alone uses the project name. -/
def deleteProject (projectId _projectName : String) (confirmed : Bool) (s : AppState) :
    AppState :=
  if !confirmed then s
  else
    fetchStart
      { url := API_URL ++ "/projects/" ++ projectId, method := "DELETE", headers := [bearer s] }
      .deleteProject s

/-- The function `deleteProject` after its `await fetch` (lines 250-260). -/
def deleteProjectResume (r : Response) (s : AppState) : AppState :=
  match r with
  | .networkError => showMessage (.str "Error de conexión al eliminar proyecto") "error" s
  | .http status body =>
    if statusOk status then
      loadProjects (showMessage (.str "Proyecto eliminado correctamente") "success" s)
    else
      match body with
      | none => showMessage (.str "Error de conexión al eliminar proyecto") "error" s
      | some data => showMessage (data.error.or (.str "Error al eliminar proyecto")) "error" s

/-- The function `rebuildProject` up to its `await fetch` (lines 263-274). -/
def rebuildProject (projectId _projectName : String) (confirmed : Bool) (s : AppState) :
    AppState :=
  if !confirmed then s
  else
    fetchStart
      { url := API_URL ++ "/projects/" ++ projectId ++ "/rebuild", method := "POST",
        headers := [bearer s] }
      .rebuildProject s

/-- The function `rebuildProject` after its `await fetch` (lines 276-286). -/
def rebuildProjectResume (r : Response) (s : AppState) : AppState :=
  match r with
  | .networkError => showMessage (.str "Error de conexión al reconstruir proyecto") "error" s
  | .http status body =>
    if statusOk status then loadProjects (showMessage (.str "Reconstrucción iniciada") "success" s)
    else
      match body with
      | none => showMessage (.str "Error de conexión al reconstruir proyecto") "error" s
      | some data => showMessage (data.error.or (.str "Error al reconstruir proyecto")) "error" s

/-- The function `trackActivity` up to its `await fetch` (lines 446-455). -/
def trackActivity (containerName : String) (s : AppState) : AppState :=
  if containerName = "" then s
  else
    fetchStart
      { url := API_URL ++ "/api/projects/activity/" ++ containerName, method := "POST",
        headers := [jsonContent] }
      .trackActivity s

/-! ## The event loop -/

/-- What runs when the answer to an awaited fetch is there. For `refreshAccessToken`
this is the rest of that function and then the rest of its only caller, `loadProjects`
(line 193: `loadProjects(); // Reintentar`). Reading the body with `response.json()`
is a second await in the source; no variable is read or written between the two, so
the answer and its body are delivered together. -/
def resume (toLocaleString : JSVal → String) (k : Pending) (r : Response) (s : AppState) :
    AppState :=
  match k with
  | .verifyAndLoadSession => verifyAndLoadSessionResume r s
  | .handleLogin => handleLoginResume r s
  | .handleSignup => handleSignupResume r s
  | .logout => logoutResume r s
  | .loadProjects => loadProjectsResume toLocaleString r s
  | .handleCreateProject => handleCreateProjectResume r s
  | .deleteProject => deleteProjectResume r s
  | .rebuildProject => rebuildProjectResume r s
  | .refreshAccessToken => loadProjects (refreshAccessTokenResume r s)
  | .trackActivity => s

/-- One task of the event loop: a form is submitted, a button is pressed, an interval
timer fires, or the answer to the awaited fetch number `i` arrives. -/
inductive Event where
  | submitLogin (email password : String)
  | submitSignup (name email password confirm : String)
  | clickLogout
  | tick (id : Nat)
  | submitCreateProject (nombre repo_url : String)
  | clickDelete (projectId projectName : String) (confirmed : Bool)
  | clickRebuild (projectId projectName : String) (confirmed : Bool)
  | clickLink (containerName : String)
  | deliver (i : Nat) (r : Response)
  deriving DecidableEq

/-- The effect of one task on the page. A timer that was cancelled does not fire; an
answer for a fetch that is not awaited does not exist. -/
def step (toLocaleString : JSVal → String) (e : Event) (s : AppState) : AppState :=
  match e with
  | .submitLogin email password => handleLogin email password s
  | .submitSignup name email password confirm => handleSignup name email password confirm s
  | .clickLogout => logout s
  | .tick id => if id ∈ s.intervals then loadProjects s else s
  | .submitCreateProject nombre repo_url => handleCreateProject nombre repo_url s
  | .clickDelete projectId projectName confirmed =>
    deleteProject projectId projectName confirmed s
  | .clickRebuild projectId projectName confirmed =>
    rebuildProject projectId projectName confirmed s
  | .clickLink containerName => trackActivity containerName s
  | .deliver i r =>
    match s.awaiting.get? i with
    | none => s
    | some k => resume toLocaleString k r { s with awaiting := s.awaiting.eraseIdx i }

/-- The page after a sequence of tasks. -/
def run (toLocaleString : JSVal → String) (es : List Event) (s : AppState) : AppState :=
  es.foldl (fun acc e => step toLocaleString e acc) s

/-- The page when the script has been loaded, with what `localStorage` holds from
earlier visits, and the `DOMContentLoaded` handler has run. -/
def startup (storage : Storage) : AppState :=
  domContentLoaded { localStorage := storage }

/-- The number of requests in a log that went to the given URL. -/
def requestsTo (url : String) (log : List Request) : Nat :=
  (log.filter fun req => decide (req.url = url)).length

/-- The answers to one call of `loadProjects` made while nothing else is awaited: each
is delivered to the only awaited fetch. -/
def deliverAll (toLocaleString : JSVal → String) (answers : List Response) (s : AppState) :
    AppState :=
  run toLocaleString (answers.map fun r => Event.deliver 0 r) s

/-- The URL of the list request of `loadProjects`. -/
def listUrl : String := API_URL ++ "/projects/"

/-- The URL of the request of `refreshAccessToken`. -/
def refreshUrl : String := API_URL ++ "/auth/refresh"

/-- The answers that keep one call of `loadProjects` going: in each round the list
request is answered 401 (with any body) and the refresh request that follows gets the
second answer of the pair, whatever it is. -/
def roundAnswers : List (Option RespData × Response) → List Response
  | [] => []
  | (body, refreshAnswer) :: rest => .http 401 body :: refreshAnswer :: roundAnswers rest

/-- The session invariant of the specification: `accessToken` and `refreshToken` are
both there or both not there. -/
def sessionInvariant (s : AppState) : Bool :=
  s.accessToken.present == s.refreshToken.present

/-- The success answers have the documented shape: a 2xx answer to the login request
carries an access token and a refresh token, a 2xx answer to the refresh request
carries an access token. -/
def documentedShape (k : Pending) (r : Response) : Bool :=
  match k, r with
  | .handleLogin, .http status (some data) =>
    !statusOk status || (data.accessToken.present && data.refreshToken.present)
  | .refreshAccessToken, .http status (some data) =>
    !statusOk status || data.accessToken.present
  | _, _ => true

/-- A 2xx answer with a readable body to a refresh request, handled at a moment when
the variable `refreshToken` is not there: either the session was cleared while the
refresh was awaited, or the refresh request was sent without a refresh token, as after
a forced logout or on a page without session. -/
def refreshWithoutSession (s : AppState) (k : Pending) (r : Response) : Bool :=
  match k, r with
  | .refreshAccessToken, .http status (some _) => statusOk status && !s.refreshToken.present
  | _, _ => false

/-- The task delivers an answer of the documented shape, or is no delivery. -/
def documentedEvent (s : AppState) (e : Event) : Bool :=
  match e with
  | .deliver i r =>
    match s.awaiting.get? i with
    | some k => documentedShape k r
    | none => true
  | _ => true

/-- The task delivers a refresh success while `refreshToken` is not there. -/
def refreshWithoutSessionEvent (s : AppState) (e : Event) : Bool :=
  match e with
  | .deliver i r =>
    match s.awaiting.get? i with
    | some k => refreshWithoutSession s k r
    | none => false
  | _ => false

/-- Every answer delivered along the run has the documented shape. -/
def documentedRun (toLocaleString : JSVal → String) : List Event → AppState → Bool
  | [], _ => true
  | e :: es, s => documentedEvent s e && documentedRun toLocaleString es (step toLocaleString e s)

/-- No task of the run delivers a refresh success while `refreshToken` is not there. -/
def noRefreshWithoutSession (toLocaleString : JSVal → String) : List Event → AppState → Bool
  | [], _ => true
  | e :: es, s => !refreshWithoutSessionEvent s e && noRefreshWithoutSession toLocaleString es (step toLocaleString e s)

/-- A 2xx answer to the login request, of the documented shape. -/
def loginAnswer : Response :=
  .http 200 (some { accessToken := .str "a1", refreshToken := .str "r1", user := .obj 1 })

/-- A user logs in and the dashboard opens; the first list request is answered 401, so
a refresh request leaves; the refresh request is rejected with a 401. -/
def forcedLogoutTrace : List Event :=
  [.submitLogin "u@x.co" "pw", .deliver 0 loginAnswer, .deliver 0 (.http 401 none),
   .deliver 0 (.http 401 none)]

/-- A user logs in; the first list request is answered 401, so a refresh request
leaves; the user logs out and the logout completes; only then the refresh request is
answered, with a 200 and a new access token. -/
def lateRefreshTrace : List Event :=
  [.submitLogin "u@x.co" "pw", .deliver 0 loginAnswer, .deliver 0 (.http 401 none),
   .clickLogout, .deliver 1 (.http 200 none),
   .deliver 0 (.http 200 (some { accessToken := .str "a2" }))]

/-- The forced logout of `forcedLogoutTrace`, after which `loadProjects` tries again
without a session: its list request is answered 401, the refresh request that follows
carries no refresh token, and the backend answers it 200 with an access token. -/
def tokenlessRefreshTrace : List Event :=
  forcedLogoutTrace ++
    [.deliver 0 (.http 401 none), .deliver 0 (.http 200 (some { accessToken := .str "a2" }))]

/-- The answers to one call of `loadProjects`: the list request is answered 401 twice,
each refresh request is answered 200 with a new access token, and the third list
request is answered 200 with an empty list. -/
def twoExpiriesAnswers : List Response :=
  [.http 401 none, .http 200 (some { accessToken := .str "a2" }),
   .http 401 none, .http 200 (some { accessToken := .str "a3" }),
   .http 200 (some { projects := some [] })]

/-- The data of an answer that is a success for the code: a 2xx status and a body
that `response.json()` can read. -/
def Response.readable : Response → Option RespData
  | .networkError => none
  | .http status body => if statusOk status then body else none

/-- The session is gone and no poll timer is registered: the three variables are `null`,
neither storage key is there, and `autoRefreshInterval` is `null`. -/
def loggedOut (s : AppState) : Bool :=
  decide (s.accessToken = .null) && decide (s.refreshToken = .null) &&
  decide (s.currentUser = .null) &&
  decide (s.localStorage.getItem "accessToken" = none) &&
  decide (s.localStorage.getItem "refreshToken" = none) &&
  decide (s.autoRefreshInterval = none)

/-- One call of `logout` run to its end with nothing else happening meanwhile: with an
access token the notification is sent and `r` is its outcome, without one nothing is
awaited. -/
def logoutToCompletion (toLocaleString : JSVal → String) (r : Response) (s : AppState) :
    AppState :=
  if s.accessToken.truthy then
    step toLocaleString (.deliver s.awaiting.length r) (step toLocaleString .clickLogout s)
  else step toLocaleString .clickLogout s

/-- A poll cycle that ends in a failure other than an authorization failure: no answer,
a non-2xx answer other than 401, a 2xx answer whose body cannot be read, or a 2xx answer
whose `projects` is not an array, so that rendering it raises an error. -/
def pollFailure (r : Response) : Bool :=
  match r with
  | .networkError => true
  | .http status body =>
    if statusOk status then
      match body with
      | none => true
      | some data => data.projects.isNone
    else decide (status ≠ 401)

/-- A user logs in and the dashboard opens, sending the first list request and starting
the poll timer; the timer fires before that request is answered. -/
def tickWhileLoadingTrace : List Event :=
  [.submitLogin "u@x.co" "pw", .deliver 0 loginAnswer, .tick 1]

/-- A user logs in and the dashboard sends the first list request; the user logs out
and the logout completes while the list request is still awaited. -/
def logoutWhileLoadingTrace : List Event :=
  [.submitLogin "u@x.co" "pw", .deliver 0 loginAnswer, .clickLogout,
   .deliver 1 (.http 200 none)]

/-- A 2xx answer to the list request with one running project. -/
def lateListAnswer : Response :=
  .http 200 (some { projects := some [{ nombre := .str "web", status := .str "running" }] })

/-- A user logs in, the first list request is answered with one project, the poll
timer fires, and the second list request is answered 200 by a body without `projects`. -/
def renderErrorTrace : List Event :=
  [.submitLogin "u@x.co" "pw", .deliver 0 loginAnswer, .deliver 0 lateListAnswer, .tick 1,
   .deliver 0 (.http 200 (some {}))]

/-! ## The microservices dashboard (`app_microservices_backup.js`)

The session, service-list and confirmation logic of
`src/dashboard/src/js/app_microservices_backup.js`; the test tool and the management
tools of that file only write to the page and are left out. -/

namespace Microservices

/-- The constant `CONFIG.MANAGER_URL` (line 10). -/
def MANAGER_URL : String := "http://localhost:5000"

/-- The constant `CONFIG.REFRESH_INTERVAL` (line 11), in milliseconds. -/
def REFRESH_INTERVAL : Nat := 30000

/-- A text put together by concatenation or by a template literal, whose parts can be
literals, host-provided strings, or values of an answer. -/
inductive Txt where
  | lit (s : String)
  | val (v : JSVal)
  | cat (a b : Txt)
  deriving DecidableEq

/-- One element of `data.microservices`. -/
structure Service where
  id : JSVal := .undefined
  name : JSVal := .undefined
  type : JSVal := .undefined
  status : JSVal := .undefined
  is_static : JSVal := .undefined
  port : JSVal := .undefined
  external_endpoint : JSVal := .undefined
  created_at : JSVal := .undefined
  deriving DecidableEq

/-- The object stored in the variable `pendingAction` (lines 295-299). -/
structure PendingAction where
  action : String
  serviceId : String
  serviceName : String
  deriving DecidableEq

/-- The object given to `JSON.stringify` for the body of a request. -/
inductive Body where
  | login (email password : String)
  | create (name type description : String) (custom_code : Option String)
  deriving DecidableEq

/-- The `options` argument of `apiRequest`, which is also the second argument of
`fetch`; `none` is a property that the object does not have. -/
structure Options where
  method : Option String := none
  headers : Option (List (String × String)) := none
  body : Option Body := none
  deriving DecidableEq

/-- The object spread `{ ...a, ...b }`: a property of `b` replaces the property of the
same name of `a` as a whole. -/
def Options.spread (a b : Options) : Options :=
  { method := match b.method with
      | some m => some m
      | none => a.method
    headers := match b.headers with
      | some h => some h
      | none => a.headers
    body := match b.body with
      | some x => some x
      | none => a.body }

/-- The two arguments of one call of `fetch`. -/
structure FetchCall where
  url : String
  init : Options
  deriving DecidableEq

/-- The value of the request header `name`, when the call has it. -/
def FetchCall.header (call : FetchCall) (name : String) : Option String :=
  match call.init.headers with
  | none => none
  | some hs => (hs.find? fun kv => decide (kv.1 = name)).map fun kv => kv.2

/-- The object read from an answer by `response.json()`; `microservices` is `none` when
the field is missing or falsy and an array otherwise. -/
structure Data where
  success : JSVal := .undefined
  error : JSVal := .undefined
  message : JSVal := .undefined
  token : Tok := .undefined
  microservices : Option (List Service) := none
  deriving DecidableEq

/-- What `response.json()` gives: it rejects with an error message, or it resolves. -/
inductive Parsed where
  | unreadable (message : String)
  | data (d : Data)
  deriving DecidableEq

/-- How an awaited `fetch` ends: it rejects with an error message, or an answer with a
status and a status text arrives. -/
inductive Answer where
  | networkError (message : String)
  | http (status : Nat) (statusText : String) (body : Parsed)
  deriving DecidableEq

/-- An awaited `fetch`, named after the function that resumes, with the local constants
that function still uses. -/
inductive Awaited where
  | handleLogin (email : String)
  | handleCreateService (name : String)
  | executeDelete (serviceName : String)
  | refreshServices
  deriving DecidableEq

/-- The module variables of the file (lines 15-19 and 169) and the parts of the browser
they act on. -/
structure State where
  currentToken : Tok := .null
  currentUser : Option String := none
  activeServices : List Service := []
  pendingAction : Option PendingAction := none
  refreshTimer : Option Nat := none
  isCreatingService : Bool := false
  localStorage : Storage := []
  intervals : List Nat := []
  timerCount : Nat := 0
  dashboardShown : Bool := false
  modalShown : Bool := false
  loading : Bool := false
  servicesShown : List Service := []
  messages : List (Txt × String) := []
  sent : List FetchCall := []
  awaiting : List Awaited := []
  deriving DecidableEq

/-- The function `showMessage` (lines 25-35). -/
def showMessage (message : Txt) (type : String) (s : State) : State :=
  { s with messages := s.messages ++ [(message, type)] }

/-- The function `showError` (lines 37-39). -/
def showError (message : Txt) (s : State) : State := showMessage message "error" s

/-- The function `showSuccess` (lines 41-43). -/
def showSuccess (message : Txt) (s : State) : State := showMessage message "success" s

/-- The function `showLoading` (lines 50-57). -/
def showLoading (visible : Bool) (s : State) : State := { s with loading := visible }

/-- The constant `defaultOptions` of `apiRequest` (lines 61-66): the Authorization
header is spread in only when `currentToken` is truthy. -/
def defaultOptions (s : State) : Options :=
  { headers := some
      (("Content-Type", "application/json") ::
        (if s.currentToken.truthy then [("Authorization", "Bearer " ++ s.currentToken.toString)]
         else [])) }

/-- The arguments `apiRequest` gives to `fetch` (lines 60-68). -/
def apiRequestCall (endpoint : String) (options : Options) (s : State) : FetchCall :=
  { url := MANAGER_URL ++ endpoint, init := (defaultOptions s).spread options }

/-- An `await apiRequest(endpoint, options)`: the request leaves and the caller is
suspended. -/
def apiRequest (endpoint : String) (options : Options) (k : Awaited) (s : State) : State :=
  { s with sent := s.sent ++ [apiRequestCall endpoint options s], awaiting := s.awaiting ++ [k] }

/-- JavaScript's `WhiteSpace` and `LineTerminator` code points, which `trim` removes. -/
def jsWhitespace (c : Char) : Bool :=
  decide (c.toNat ∈ [0x9, 0xA, 0xB, 0xC, 0xD, 0x20, 0xA0, 0x1680, 0x2000, 0x2001, 0x2002,
    0x2003, 0x2004, 0x2005, 0x2006, 0x2007, 0x2008, 0x2009, 0x200A, 0x2028, 0x2029, 0x202F,
    0x205F, 0x3000, 0xFEFF])

/-- The method `String.prototype.trim`. -/
def jsTrim (str : String) : String :=
  String.mk ((str.data.dropWhile jsWhitespace).reverse.dropWhile jsWhitespace).reverse

/-- The function `refreshServices` up to its `await` (lines 386-390). -/
def refreshServices (s : State) : State := apiRequest "/api/microservices" {} .refreshServices s

/-- The value is a string. -/
def isString : JSVal → Bool
  | .str _ => true
  | _ => false

/-- The `map` callback of `renderServices` throws for this service: `service.name` or
`service.id` is truthy and has no method `replace`, not being a string (lines
431-432). -/
def renderThrows (service : Service) : Bool :=
  (service.name.truthy && !isString service.name) || (service.id.truthy && !isString service.id)

/-- The function `refreshServices` after its `await` (lines 391-410); what
`renderServices` and `updateStats` write is kept as the list they were given. When the
callback of `renderServices` throws for a service, nothing is written and the `catch`
block shows the connection error, `activeServices` being already assigned. -/
def refreshServicesResume (a : Answer) (s : State) : State :=
  match a with
  | .networkError _ => showError (.lit "Error de conexión al cargar servicios") s
  | .http _ _ (.unreadable _) => showError (.lit "Error de conexión al cargar servicios") s
  | .http status _ (.data d) =>
    match statusOk status, d.microservices with
    | true, some services =>
      if services.any renderThrows then
        showError (.lit "Error de conexión al cargar servicios")
          { s with activeServices := services }
      else { s with activeServices := services, servicesShown := services }
    | _, _ => showError (.lit "Error cargando servicios") s

/-- The host call `clearInterval(id)`. -/
def clearInterval (id : Nat) (s : State) : State :=
  { s with intervals := s.intervals.filter fun t => decide (t ≠ id) }

/-- The function `startAutoRefresh` (lines 760-771). -/
def startAutoRefresh (s : State) : State :=
  let s1 :=
    match s.refreshTimer with
    | some id => if id ≠ 0 then clearInterval id s else s
    | none => s
  let id := s1.timerCount + 1
  { s1 with intervals := s1.intervals ++ [id], timerCount := id, refreshTimer := some id }

/-- The callback of the interval timer (lines 765-770). -/
def autoRefreshTick (s : State) : State :=
  if s.currentToken.truthy then refreshServices s else s

/-- The function `showDashboard` (lines 122-133); `loadTestServices` writes to the page
only. -/
def showDashboard (s : State) : State :=
  startAutoRefresh (refreshServices { s with dashboardShown := true })

/-- The function `logout` (lines 135-165). -/
def logout (s : State) : State :=
  let s1 :=
    { s with
      currentToken := .null
      currentUser := none
      activeServices := []
      localStorage := (s.localStorage.removeItem "roble_token").removeItem "roble_user" }
  let s2 :=
    match s1.refreshTimer with
    | some id => if id ≠ 0 then { clearInterval id s1 with refreshTimer := none } else s1
    | none => s1
  showSuccess (.lit "Sesión cerrada correctamente") { s2 with dashboardShown := false }

/-- The function `handleLogin` up to its `await` (lines 73-92). -/
def handleLogin (emailField password : String) (s : State) : State :=
  let email := jsTrim emailField
  if email = "" ∨ password = "" then showError (.lit "Por favor complete todos los campos") s
  else
    apiRequest "/api/login" { method := some "POST", body := some (.login email password) }
      (.handleLogin email) (showLoading true s)

/-- The function `handleLogin` after its `await` (lines 94-120). -/
def handleLoginResume (email : String) (a : Answer) (s : State) : State :=
  let s1 :=
    match a with
    | .networkError _ => showError (.lit "Error de conexión con el servidor") s
    | .http _ _ (.unreadable _) => showError (.lit "Error de conexión con el servidor") s
    | .http status _ (.data d) =>
      if statusOk status && d.success.truthy then
        let s2 := { s with currentToken := d.token, currentUser := some email }
        let s3 :=
          { s2 with
            localStorage :=
              (s2.localStorage.setItem "roble_token" s2.currentToken.toString).setItem
                "roble_user" email }
        showDashboard (showSuccess (.lit "Login exitoso") s3)
      else showError (.val (d.error.or (.str "Error de autenticación"))) s
  showLoading false s1

/-- The `DOMContentLoaded` handler (lines 775-786), as far as it touches the variables. -/
def domContentLoaded (s : State) : State :=
  match s.localStorage.getItem "roble_token", s.localStorage.getItem "roble_user" with
  | some savedToken, some savedUser =>
    if savedToken ≠ "" ∧ savedUser ≠ "" then
      showDashboard { s with currentToken := .str savedToken, currentUser := some savedUser }
    else s
  | _, _ => s

/-- The values of the fields of the create-service form. -/
structure CreateForm where
  name : String := ""
  type : String := "filter"
  description : String := ""
  customCode : String := ""
  deriving DecidableEq

/-- The character class `[a-zA-Z0-9-_]` of the name pattern (line 202). -/
def nameClass (c : Char) : Bool :=
  (decide ('a' ≤ c) && decide (c ≤ 'z')) || (decide ('A' ≤ c) && decide (c ≤ 'Z')) ||
  (decide ('0' ≤ c) && decide (c ≤ '9')) || decide (c = '-') || decide (c = '_')

/-- The test `/^[a-zA-Z0-9-_]+$/.test(name)` (line 202): one or more characters, all of
the class. -/
def namePattern (name : String) : Bool := !name.data.isEmpty && name.data.all nameClass

/-- The function `handleCreateService` up to its `await` (lines 171-235). The two
validation returns are inside the outer `try`, which has no `finally`. -/
def handleCreateService (form : CreateForm) (s : State) : State :=
  if s.isCreatingService then s
  else
    let s1 := { s with isCreatingService := true }
    let name := jsTrim form.name
    let description := jsTrim form.description
    let customCode := jsTrim form.customCode
    if name = "" then showError (.lit "El nombre del servicio es requerido") s1
    else if !namePattern name then
      showError
        (.lit "El nombre solo puede contener letras, números, guiones y guiones bajos") s1
    else
      apiRequest "/api/microservices"
        { method := some "POST",
          body := some (.create name form.type description
            (if customCode ≠ "" then some customCode else none)) }
        (.handleCreateService name) (showLoading true s1)

/-- The constant `errorMessage` of `handleCreateService` (line 256). -/
def createErrorMessage (status : Nat) (statusText : String) (d : Data) : Txt :=
  if d.error.truthy then .val d.error
  else if d.message.truthy then .val d.message
  else .cat (.lit "Error ") (.cat (.val (.num status)) (.cat (.lit ": ") (.lit statusText)))

/-- The function `handleCreateService` after its `await` (lines 237-270), with the
`finally` block of the inner `try`. -/
def handleCreateServiceResume (name : String) (a : Answer) (s : State) : State :=
  let s1 :=
    match a with
    | .networkError message => showError (.cat (.lit "Error de conexión: ") (.lit message)) s
    | .http _ _ (.unreadable _) => showError (.lit "Error: Respuesta inválida del servidor") s
    | .http status statusText (.data d) =>
      if statusOk status && d.success.truthy then
        refreshServices
          (showSuccess
            (.cat (.lit "Microservicio '") (.cat (.lit name) (.lit "' creado exitosamente"))) s)
      else showError (createErrorMessage status statusText d) s
  { showLoading false s1 with isCreatingService := false }

/-- The function `showModal` (lines 731-735); title and message go to the page. -/
def showModal (s : State) : State := { s with modalShown := true }

/-- The function `closeModal` (lines 737-741). -/
def closeModal (s : State) : State := { s with modalShown := false }

/-- The function `deleteService` (lines 278-316); its arguments are the strings written
into the `onclick` attribute by `renderServices`. -/
def deleteService (serviceId serviceName : String) (s : State) : State :=
  let serviceName1 :=
    if serviceName = "null" ∨ serviceName = "undefined" then serviceId else serviceName
  let finalServiceName :=
    if serviceName1 ≠ "" then serviceName1
    else if serviceId ≠ "" then serviceId
    else "Sin nombre"
  showModal { s with pendingAction := some ⟨"delete", serviceId, finalServiceName⟩ }

/-- The `finally` block of `executeDelete` (lines 379-383). -/
def executeDeleteFinally (s : State) : State :=
  { showLoading false s with pendingAction := none }

/-- The function `executeDelete` up to its `await` (lines 318-351); when it returns
before the request the `finally` block runs at once. -/
def executeDelete (s : State) : State :=
  match s.pendingAction with
  | none =>
    executeDeleteFinally (showError (.lit "Error: No se puede proceder con la eliminación") s)
  | some pa =>
    if pa.action ≠ "delete" then
      executeDeleteFinally
        (showError (.lit "Error: No se puede proceder con la eliminación") s)
    else if pa.serviceId = "" then
      executeDeleteFinally (showError (.lit "Error: Datos de eliminación incompletos") s)
    else
      let serviceName :=
        if pa.serviceName ≠ "" then pa.serviceName
        else if pa.serviceId ≠ "" then pa.serviceId
        else "Sin nombre"
      apiRequest ("/api/microservices/" ++ pa.serviceId) { method := some "DELETE" }
        (.executeDelete serviceName) (showLoading true s)

/-- The function `executeDelete` after its `await` (lines 353-383): every error of the
inner `try` is shown as a connection error, then the `finally` block runs. -/
def executeDeleteResume (serviceName : String) (a : Answer) (s : State) : State :=
  let s1 :=
    match a with
    | .networkError message => showError (.cat (.lit "Error de conexión: ") (.lit message)) s
    | .http status statusText body =>
      if !statusOk status then
        showError
          (.cat (.lit "Error de conexión: ")
            (.cat (.lit "HTTP ") (.cat (.val (.num status)) (.cat (.lit ": ") (.lit statusText)))))
          s
      else
        match body with
        | .unreadable message =>
          showError (.cat (.lit "Error de conexión: ") (.lit message)) s
        | .data d =>
          if d.success.truthy then
            refreshServices
              (showSuccess
                (.cat (.lit "Microservicio '")
                  (.cat (.lit serviceName) (.lit "' eliminado exitosamente"))) s)
          else
            showError
              (.cat (.lit "Error de conexión: ")
                (.val (d.error.or (.str "Error desconocido eliminando microservicio")))) s
  executeDeleteFinally s1

/-- The function `confirmAction` (lines 743-756). -/
def confirmAction (s : State) : State :=
  match s.pendingAction with
  | some pa =>
    if pa.action = "delete" then executeDelete (closeModal s)
    else { closeModal s with pendingAction := none }
  | none => { closeModal s with pendingAction := none }

/-- What runs when the answer to an awaited fetch is there. -/
def resume (k : Awaited) (a : Answer) (s : State) : State :=
  match k with
  | .handleLogin email => handleLoginResume email a s
  | .handleCreateService name => handleCreateServiceResume name a s
  | .executeDelete serviceName => executeDeleteResume serviceName a s
  | .refreshServices => refreshServicesResume a s

/-- One task of the event loop of the microservices dashboard. Cancelling the dialog,
by its button or by the Escape key (line 796), calls `closeModal`. -/
inductive Event where
  | submitLogin (emailField password : String)
  | submitCreate (form : CreateForm)
  | clickLogout
  | tick (id : Nat)
  | clickDelete (serviceId serviceName : String)
  | clickConfirm
  | clickCancel
  | deliver (i : Nat) (a : Answer)
  deriving DecidableEq

/-- The effect of one task on the page. -/
def step (e : Event) (s : State) : State :=
  match e with
  | .submitLogin emailField password => handleLogin emailField password s
  | .submitCreate form => handleCreateService form s
  | .clickLogout => logout s
  | .tick id => if id ∈ s.intervals then autoRefreshTick s else s
  | .clickDelete serviceId serviceName => deleteService serviceId serviceName s
  | .clickConfirm => confirmAction s
  | .clickCancel => closeModal s
  | .deliver i a =>
    match s.awaiting.get? i with
    | none => s
    | some k => resume k a { s with awaiting := s.awaiting.eraseIdx i }

/-- The page after a sequence of tasks. -/
def run (es : List Event) (s : State) : State := es.foldl (fun acc e => step e acc) s

/-- The page when the script has been loaded and the `DOMContentLoaded` handler has
run. -/
def startup (storage : Storage) : State := domContentLoaded { localStorage := storage }

/-- The name is non-empty and every character of it is an ASCII letter, a digit, '-'
or '_', in the words of the specification. -/
def nameAllowed (name : String) : Prop :=
  name ≠ "" ∧ ∀ c ∈ name.data, c.isAlpha = true ∨ c.isDigit = true ∨ c = '-' ∨ c = '_'

instance nameAllowedDecidable (name : String) : Decidable (nameAllowed name) := by
  unfold nameAllowed
  infer_instance

/-- A user logs in, the service list arrives with one service, the user presses its
delete button and then cancels the confirmation dialog. -/
def cancelDeleteTrace : List Event :=
  [.submitLogin "u@x.co" "pw",
   .deliver 0 (.http 200 "OK" (.data { success := .bool true, token := .str "t1" })),
   .deliver 0 (.http 200 "OK" (.data
     { microservices := some [{ id := .str "svc1", name := .str "Filtro" }] })),
   .clickDelete "svc1" "Filtro",
   .clickCancel]

/-- A user logs in and the service list arrives; the user submits the create form with
the name 'mi servicio', which the name pattern rejects, corrects the name to 'svc-1' and
submits again. -/
def rejectedNameTrace : List Event :=
  [.submitLogin "u@x.co" "pw",
   .deliver 0 (.http 200 "OK" (.data { success := .bool true, token := .str "t1" })),
   .deliver 0 (.http 200 "OK" (.data { microservices := some [] })),
   .submitCreate { name := "mi servicio" },
   .submitCreate { name := "svc-1" }]

/-- The interval timers that are alive are exactly the one held by `refreshTimer`, a
positive id, or none when `refreshTimer` is `null`. -/
def timersOk (s : State) : Bool :=
  match s.refreshTimer with
  | some id => decide (id ≠ 0 ∧ s.intervals = [id])
  | none => decide (s.intervals = [])

/-- A user logs in and the service list arrives with two services; the user confirms
the deletion of the first, opens the dialog for the second while that request is still
awaited and cancels it; then the answer to the first deletion arrives. -/
def overlappingDeleteTrace : List Event :=
  [.submitLogin "u@x.co" "pw",
   .deliver 0 (.http 200 "OK" (.data { success := .bool true, token := .str "t1" })),
   .deliver 0 (.http 200 "OK" (.data
     { microservices := some [{ id := .str "svc1", name := .str "Filtro" },
                              { id := .str "svc2", name := .str "Suma" }] })),
   .clickDelete "svc1" "Filtro",
   .clickConfirm,
   .clickDelete "svc2" "Suma",
   .clickCancel,
   .deliver 0 (.http 200 "OK" (.data { success := .bool true }))]

end Microservices

/-- The number of cards whose status element has the given CSS class. -/
def classCount (cls : String) (v : ProjectsView) : Nat :=
  (v.items.filter fun c => decide (c.statusClass = cls)).length

/-- The interval timers that are alive are exactly the one held by
`autoRefreshInterval`, a positive id, or none when `autoRefreshInterval` is `null`. -/
def timersOk (s : AppState) : Bool :=
  match s.autoRefreshInterval with
  | some id => decide (id ≠ 0 ∧ s.intervals = [id])
  | none => decide (s.intervals = [])

/-- A user logs in, the first list request is answered with one project, the poll
timer fires, and the second list request is answered 200 by a body whose `projects` is
the empty string. -/
def emptyStringProjectsTrace : List Event :=
  [.submitLogin "u@x.co" "pw", .deliver 0 loginAnswer, .deliver 0 lateListAnswer, .tick 1,
   .deliver 0 (.http 200 (some { projectsLength0 := true }))]

/-- The status-label table as the specification words it: running, exited, building,
pending and not_found have a label; nothing else is in the table. -/
def statusLabelTable : List (String × String) :=
  [("running", "corriendo"), ("exited", "detenido"), ("building", "construyendo"),
   ("pending", "pendiente"), ("not_found", "no encontrado")]

/-- The label the specification gives to a status: the table entry when the status is
a key of the table, the raw value otherwise. -/
def labelOf (status : JSVal) : JSVal :=
  match status with
  | .str s =>
    match statusLabelTable.lookup s with
    | some label => .str label
    | none => status
  | _ => status

/-! ## Lemmas on values and lists -/

theorem eqStr_iff (v : JSVal) (lit : String) : v.eqStr lit = true ↔ v = .str lit := by
  cases v <;> simp [JSVal.eqStr]

theorem eqStr_false_iff (v : JSVal) (lit : String) : v.eqStr lit = false ↔ v ≠ .str lit := by
  cases v <;> simp [JSVal.eqStr]

theorem filter_disjoint_le {α : Type} (f g : α → Bool) (h : ∀ a, f a = true → g a = false)
    (S : List α) : (S.filter f).length + (S.filter g).length ≤ S.length := by
  induction S with
  | nil => simp
  | cons a S ih =>
    cases hf : f a
    · cases hg : g a <;> simp [List.filter_cons, hf, hg] <;> omega
    · have hg := h a hf
      simp [List.filter_cons, hf, hg]
      omega

theorem idleWarningText_ne_empty : idleWarningText ≠ "" := by decide

/-! ## The derived display: totals, effective status, labels, idle warning -/

/-- C2: for every project list `S`, `updateStats` gives `total = length S`, counts as
running the projects whose effective status is 'running', counts as stopped those
whose effective status is 'stopped' or 'exited', and `running + stopped ≤ total`. -/
theorem updateStats_totals (S : List Project) :
    (updateStats S).total = S.length ∧
    (updateStats S).running
      = S.countP (fun p => decide (statsStatus p = .str "running")) ∧
    (updateStats S).stopped
      = S.countP (fun p =>
          decide (statsStatus p = .str "stopped" ∨ statsStatus p = .str "exited")) ∧
    (updateStats S).running + (updateStats S).stopped ≤ (updateStats S).total := by
  refine ⟨rfl, ?_, ?_, ?_⟩
  · simp only [updateStats, List.countP_eq_length_filter]
    congr 2
    funext p
    cases h : (statsStatus p).eqStr "running"
    · simp [(eqStr_false_iff _ _).mp h]
    · simp [(eqStr_iff _ _).mp h]
  · simp only [updateStats, List.countP_eq_length_filter]
    congr 2
    funext p
    cases h1 : (statsStatus p).eqStr "stopped" <;> cases h2 : (statsStatus p).eqStr "exited"
    · simp [(eqStr_false_iff _ _).mp h1, (eqStr_false_iff _ _).mp h2]
    · simp [(eqStr_iff _ _).mp h2]
    · simp [(eqStr_iff _ _).mp h1]
    · simp [(eqStr_iff _ _).mp h1]
  · simp only [updateStats]
    apply filter_disjoint_le
    intro p hp
    have hr := (eqStr_iff _ _).mp hp
    simp [hr, JSVal.eqStr]

/-- C3 (counterexample): a project whose `real_status` is the empty string, a value
that is neither `null` nor `undefined`, and whose `status` is 'running': `real_status ??
status` is the empty string, but the status used by `displayProjects` and by
`updateStats` is 'running'; the card is labelled 'corriendo' and the project is counted
as running. -/
theorem effective_status_empty_real_status :
    (JSVal.str "") ≠ JSVal.null ∧ (JSVal.str "") ≠ JSVal.undefined ∧
    JSVal.nullish (.str "") (.str "running") = .str "" ∧
    displayStatus { real_status := .str "", status := .str "running" } = .str "running" ∧
    statsStatus { real_status := .str "", status := .str "running" } = .str "running" ∧
    displayStatus { real_status := .str "", status := .str "running" }
      ≠ JSVal.nullish (.str "") (.str "running") ∧
    (updateStats [{ real_status := .str "", status := .str "running" }]).running = 1 := by
  decide

theorem truthy_false_iff (v : JSVal) :
    v.truthy = false ↔
      v = .undefined ∨ v = .null ∨ v = .bool false ∨ v = .num 0 ∨ v = .str "" := by
  cases v <;> simp [JSVal.truthy]

/-- C3 (amended): for every project, the effective status used by `displayProjects` and
by `updateStats` is `real_status || status`: it is `real_status` when that value is
truthy and `status` when it is falsy, the falsy values being `undefined`, `null`,
`false`, `0` and the empty string. It agrees with `real_status ?? status` except when
`real_status` is `false`, `0` or the empty string. A project with status 'pending' and
no `real_status` has effective status 'pending'; with `real_status` 'running' it has
'running'. -/
theorem effective_status_is_or (p : Project) :
    displayStatus p = statsStatus p ∧
    displayStatus p = (if p.real_status.truthy then p.real_status else p.status) ∧
    (p.real_status.truthy = false ↔
      p.real_status = .undefined ∨ p.real_status = .null ∨ p.real_status = .bool false ∨
      p.real_status = .num 0 ∨ p.real_status = .str "") ∧
    (displayStatus p = p.real_status.nullish p.status ∨ p.real_status = .bool false ∨
      p.real_status = .num 0 ∨ p.real_status = .str "") ∧
    displayStatus { p with real_status := .undefined, status := .str "pending" }
      = .str "pending" ∧
    displayStatus { p with real_status := .str "running", status := .str "pending" }
      = .str "running" := by
  refine ⟨rfl, rfl, truthy_false_iff _, ?_, ?_, ?_⟩
  · cases h : p.real_status <;>
      simp [displayStatus, JSVal.or, JSVal.nullish, JSVal.truthy, h] <;> tauto
  · simp [displayStatus, JSVal.or, JSVal.truthy]
  · simp [displayStatus, JSVal.or, JSVal.truthy]

theorem items_displayProjects (toLocaleString : JSVal → String) (S : List Project) :
    (displayProjects toLocaleString S).items = S.map (renderCard toLocaleString) := by
  cases S <;> simp [displayProjects, ProjectsView.items]

theorem labelledCount_displayProjects (toLocaleString : JSVal → String) (label : String)
    (S : List Project) :
    labelledCount label (displayProjects toLocaleString S)
      = (S.filter fun p => decide (statusText (displayStatus p) = .str label)).length := by
  simp only [labelledCount, items_displayProjects, List.filter_map, List.length_map]
  rfl

theorem statusText_str_other (s : String) (h1 : s ≠ "running") (h2 : s ≠ "exited")
    (h3 : s ≠ "building") (h4 : s ≠ "pending") (h5 : s ≠ "not_found") :
    statusText (.str s) = .str s := by
  simp [statusText, JSVal.eqStr, h1, h2, h3, h4, h5]

theorem statusText_not_str (v : JSVal) (h : ∀ s, v ≠ .str s) : statusText v = v := by
  cases v <;> simp [statusText, JSVal.eqStr]
  exact absurd rfl (h _)

theorem statusText_corriendo_iff (v : JSVal) :
    statusText v = .str "corriendo" ↔ v = .str "running" ∨ v = .str "corriendo" := by
  by_cases hv : ∃ s, v = .str s
  · obtain ⟨s, rfl⟩ := hv
    by_cases h1 : s = "running"
    · subst h1; decide
    by_cases h2 : s = "exited"
    · subst h2; decide
    by_cases h3 : s = "building"
    · subst h3; decide
    by_cases h4 : s = "pending"
    · subst h4; decide
    by_cases h5 : s = "not_found"
    · subst h5; decide
    rw [statusText_str_other s h1 h2 h3 h4 h5]
    simp [h1]
  · have hv2 : ∀ s, v ≠ .str s := fun s h => hv ⟨s, h⟩
    rw [statusText_not_str v hv2]
    simp [hv2]

theorem statusText_detenido_iff (v : JSVal) :
    statusText v = .str "detenido" ↔ v = .str "exited" ∨ v = .str "detenido" := by
  by_cases hv : ∃ s, v = .str s
  · obtain ⟨s, rfl⟩ := hv
    by_cases h1 : s = "running"
    · subst h1; decide
    by_cases h2 : s = "exited"
    · subst h2; decide
    by_cases h3 : s = "building"
    · subst h3; decide
    by_cases h4 : s = "pending"
    · subst h4; decide
    by_cases h5 : s = "not_found"
    · subst h5; decide
    rw [statusText_str_other s h1 h2 h3 h4 h5]
    simp [h2]
  · have hv2 : ∀ s, v ≠ .str s := fun s h => hv ⟨s, h⟩
    rw [statusText_not_str v hv2]
    simp [hv2]

/-- C4 (counterexample): the list of a project with status 'stopped' and a project with
status 'corriendo'. `updateStats` counts one stopped and no running project, while
`displayProjects` labels no card 'detenido' and one card 'corriendo'. -/
theorem counts_disagree_with_labels :
    (updateStats [{ status := .str "stopped" }, { status := .str "corriendo" }]).stopped = 1 ∧
    labelledCount "detenido"
      (displayProjects (fun _ => "")
        [{ status := .str "stopped" }, { status := .str "corriendo" }]) = 0 ∧
    (updateStats [{ status := .str "stopped" }, { status := .str "corriendo" }]).running = 0 ∧
    labelledCount "corriendo"
      (displayProjects (fun _ => "")
        [{ status := .str "stopped" }, { status := .str "corriendo" }]) = 1 := by
  decide

/-- C4 (amended): for every project list in which no effective status is itself the
string 'corriendo', the running count of `updateStats` equals the number of cards that
`displayProjects` labels 'corriendo'; and for every project list in which no effective
status is 'detenido' or 'stopped', the stopped count equals the number of cards
labelled 'detenido'. -/
theorem counts_match_labels (toLocaleString : JSVal → String) (S : List Project) :
    ((∀ p ∈ S, displayStatus p ≠ .str "corriendo") →
      (updateStats S).running = labelledCount "corriendo" (displayProjects toLocaleString S)) ∧
    ((∀ p ∈ S, displayStatus p ≠ .str "detenido" ∧ displayStatus p ≠ .str "stopped") →
      (updateStats S).stopped = labelledCount "detenido" (displayProjects toLocaleString S)) := by
  constructor
  · intro h
    rw [labelledCount_displayProjects]
    simp only [updateStats]
    congr 1
    apply List.filter_congr
    intro p hp
    rw [Bool.eq_iff_iff, eqStr_iff, decide_eq_true_eq, statusText_corriendo_iff]
    constructor
    · intro hr
      exact Or.inl hr
    · rintro (hr | hr)
      · exact hr
      · exact absurd hr (h p hp)
  · intro h
    rw [labelledCount_displayProjects]
    simp only [updateStats]
    congr 1
    apply List.filter_congr
    intro p hp
    obtain ⟨hne, hst⟩ := h p hp
    have hs : (statsStatus p).eqStr "stopped" = false := (eqStr_false_iff _ _).mpr hst
    rw [hs, Bool.false_or, Bool.eq_iff_iff, eqStr_iff, decide_eq_true_eq,
      statusText_detenido_iff]
    constructor
    · intro hr
      exact Or.inl hr
    · rintro (hr | hr)
      · exact hr
      · exact absurd hr hne

/-- C4 (witness): a list with a running, an exited and a pending project. -/
theorem counts_match_labels_witness :
    (updateStats [{ status := .str "running" }, { status := .str "exited" },
      { status := .str "pending" }]).running
      = labelledCount "corriendo" (displayProjects (fun _ => "")
          [{ status := .str "running" }, { status := .str "exited" },
            { status := .str "pending" }]) ∧
    (updateStats [{ status := .str "running" }, { status := .str "exited" },
      { status := .str "pending" }]).stopped
      = labelledCount "detenido" (displayProjects (fun _ => "")
          [{ status := .str "running" }, { status := .str "exited" },
            { status := .str "pending" }]) :=
  ⟨(counts_match_labels (fun _ => "") _).1 (by decide),
   (counts_match_labels (fun _ => "") _).2 (by decide)⟩

theorem statusText_eq_labelOf (v : JSVal) : statusText v = labelOf v := by
  by_cases hv : ∃ s, v = .str s
  · obtain ⟨s, rfl⟩ := hv
    by_cases h1 : s = "running"
    · subst h1; decide
    by_cases h2 : s = "exited"
    · subst h2; decide
    by_cases h3 : s = "building"
    · subst h3; decide
    by_cases h4 : s = "pending"
    · subst h4; decide
    by_cases h5 : s = "not_found"
    · subst h5; decide
    rw [statusText_str_other s h1 h2 h3 h4 h5]
    have e1 : (s == "running") = false := beq_eq_false_iff_ne.mpr h1
    have e2 : (s == "exited") = false := beq_eq_false_iff_ne.mpr h2
    have e3 : (s == "building") = false := beq_eq_false_iff_ne.mpr h3
    have e4 : (s == "pending") = false := beq_eq_false_iff_ne.mpr h4
    have e5 : (s == "not_found") = false := beq_eq_false_iff_ne.mpr h5
    simp only [labelOf, statusLabelTable, List.lookup, e1, e2, e3, e4, e5]
  · have hv2 : ∀ s, v ≠ .str s := fun s h => hv ⟨s, h⟩
    rw [statusText_not_str v hv2]
    cases v <;> simp [labelOf]
    exact absurd rfl (hv2 _)

/-- C5: the label on the card of a project is the table entry of its effective status
(running, exited, building, pending and not_found have the labels 'corriendo',
'detenido', 'construyendo', 'pendiente' and 'no encontrado'), and for every status that
is not a key of the table the label is the status value itself; the label is defined
for every value. -/
theorem status_label_table (toLocaleString : JSVal → String) (p : Project) (v : JSVal) :
    (renderCard toLocaleString p).statusText = labelOf (displayStatus p) ∧
    statusText (.str "running") = .str "corriendo" ∧
    statusText (.str "exited") = .str "detenido" ∧
    statusText (.str "building") = .str "construyendo" ∧
    statusText (.str "pending") = .str "pendiente" ∧
    statusText (.str "not_found") = .str "no encontrado" ∧
    (statusText v = v ∨ v = .str "running" ∨ v = .str "exited" ∨ v = .str "building" ∨
      v = .str "pending" ∨ v = .str "not_found") := by
  refine ⟨statusText_eq_labelOf _, by decide, by decide, by decide, by decide, by decide, ?_⟩
  by_cases hv : ∃ s, v = .str s
  · obtain ⟨s, rfl⟩ := hv
    by_cases h1 : s = "running"
    · simp [h1]
    by_cases h2 : s = "exited"
    · simp [h2]
    by_cases h3 : s = "building"
    · simp [h3]
    by_cases h4 : s = "pending"
    · simp [h4]
    by_cases h5 : s = "not_found"
    · simp [h5]
    exact Or.inl (statusText_str_other s h1 h2 h3 h4 h5)
  · exact Or.inl (statusText_not_str v fun s h => hv ⟨s, h⟩)

theorem inactiveMinutes_eq (p : Project) : inactiveMinutes p = p.inactive_minutes.getD 0 := by
  unfold inactiveMinutes
  cases h : p.inactive_minutes with
  | none => rfl
  | some q =>
    by_cases hq : q = 0
    · simp [hq]
    · simp [hq]

/-- C6: for every project whose effective status is 'running', the card made by
`displayProjects` carries the idle-shutdown warning if and only if `inactive_minutes`
is greater than 20, a missing `inactive_minutes` counting as 0. -/
theorem idle_warning_iff (toLocaleString : JSVal → String) (p : Project)
    (h : displayStatus p = .str "running") :
    (renderCard toLocaleString p).hasIdleWarning = true ↔ p.inactive_minutes.getD 0 > 20 := by
  have hw : (renderCard toLocaleString p).inactiveDisplay
      = some ⟨inactiveMinutes p, inactiveWarning p⟩ := by
    simp [renderCard, inactiveDisplay, h, JSVal.eqStr]
  simp only [ProjectCard.hasIdleWarning, hw, decide_eq_true_eq, inactiveWarning,
    inactiveMinutes_eq]
  by_cases hq : p.inactive_minutes.getD 0 > 20
  · simp [hq]
  · simp only [hq, if_false, iff_false]
    exact fun hc => idleWarningText_ne_empty hc.symm

/-- C6 (witness): a running project with 25 idle minutes has the warning; with 5
minutes, with exactly 20 minutes and without the field it has none. -/
theorem idle_warning_iff_witness :
    (renderCard (fun _ => "")
      { status := .str "running", inactive_minutes := some 25 }).hasIdleWarning = true ∧
    (renderCard (fun _ => "")
      { status := .str "running", inactive_minutes := some 5 }).hasIdleWarning ≠ true ∧
    (renderCard (fun _ => "")
      { status := .str "running", inactive_minutes := some 20 }).hasIdleWarning ≠ true ∧
    (renderCard (fun _ => "") { status := .str "running" }).hasIdleWarning ≠ true :=
  ⟨(idle_warning_iff _ { status := .str "running", inactive_minutes := some 25 }
      (by decide)).mpr (by norm_num),
   fun hc => absurd ((idle_warning_iff _ { status := .str "running", inactive_minutes := some 5 }
      (by decide)).mp hc) (by norm_num),
   fun hc => absurd ((idle_warning_iff _ { status := .str "running", inactive_minutes := some 20 }
      (by decide)).mp hc) (by norm_num),
   fun hc => absurd ((idle_warning_iff _ { status := .str "running" }
      (by decide)).mp hc) (by norm_num)⟩

/-! ## One call of `loadProjects` -/

theorem refreshAccessTokenResume_awaiting (r : Response) (s : AppState) :
    (refreshAccessTokenResume r s).awaiting = s.awaiting := by
  unfold refreshAccessTokenResume
  split
  · rfl
  · split
    · split <;> rfl
    · rfl

theorem refreshAccessTokenResume_sent (r : Response) (s : AppState) :
    (refreshAccessTokenResume r s).sent = s.sent := by
  unfold refreshAccessTokenResume
  split
  · rfl
  · split
    · split <;> rfl
    · rfl

theorem loadProjectsResume_final (toLocaleString : JSVal → String) (final : Response)
    (s : AppState) (hfinal : ∀ body, final ≠ .http 401 body) :
    (loadProjectsResume toLocaleString final s).awaiting = s.awaiting ∧
    (loadProjectsResume toLocaleString final s).sent = s.sent := by
  cases final with
  | networkError => exact ⟨rfl, rfl⟩
  | http status body =>
    have h401 : status ≠ 401 := fun h => hfinal body (by rw [h])
    unfold loadProjectsResume
    by_cases hok : statusOk status = true
    · cases body with
      | none => simp [hok, loadProjectsCatch, showMessage]
      | some data =>
        cases hp : data.projects <;> cases hz : data.projectsLength0 <;>
          simp [hok, hp, hz, loadProjectsCatch, showMessage]
    · simp [hok, h401, showMessage]

theorem requestsTo_append (url : String) (log : List Request) (req : Request) :
    requestsTo url (log ++ [req]) = requestsTo url log + if req.url = url then 1 else 0 := by
  unfold requestsTo
  by_cases h : req.url = url <;> simp [List.filter_append, List.filter_cons, h]

theorem listUrl_ne_refreshUrl : listUrl ≠ refreshUrl := by decide

theorem deliver_round (toLocaleString : JSVal → String) (body : Option RespData)
    (refreshAnswer : Response) (s : AppState) (h : s.awaiting = [.loadProjects]) :
    let s' := step toLocaleString (.deliver 0 refreshAnswer)
      (step toLocaleString (.deliver 0 (.http 401 body)) s)
    s'.awaiting = [.loadProjects] ∧
    requestsTo listUrl s'.sent = requestsTo listUrl s.sent + 1 ∧
    requestsTo refreshUrl s'.sent = requestsTo refreshUrl s.sent + 1 := by
  have h1 : step toLocaleString (.deliver 0 (.http 401 body)) s
      = refreshAccessToken { s with awaiting := [] } := by
    simp [step, h, resume, loadProjectsResume, statusOk]
  have h2 : ∀ t : AppState, t.awaiting = [.refreshAccessToken] →
      step toLocaleString (.deliver 0 refreshAnswer) t
        = loadProjects (refreshAccessTokenResume refreshAnswer { t with awaiting := [] }) := by
    intro t ht
    simp [step, ht, resume]
  intro s'
  have hs' : s' = loadProjects (refreshAccessTokenResume refreshAnswer
      { refreshAccessToken { s with awaiting := [] } with awaiting := [] }) := by
    show step toLocaleString _ (step toLocaleString _ s) = _
    rw [h1, h2 _ (by simp [refreshAccessToken, fetchStart])]
  rw [hs']
  refine ⟨?_, ?_, ?_⟩
  · simp [loadProjects, fetchStart, refreshAccessTokenResume_awaiting]
  · simp only [loadProjects, fetchStart, refreshAccessTokenResume_sent, refreshAccessToken,
      requestsTo_append]
    simp [loadProjectsRequest, refreshAccessTokenRequest, listUrl, refreshUrl]
    decide
  · simp only [loadProjects, fetchStart, refreshAccessTokenResume_sent, refreshAccessToken,
      requestsTo_append]
    simp [loadProjectsRequest, refreshAccessTokenRequest, listUrl, refreshUrl]
    decide

theorem deliverAll_rounds (toLocaleString : JSVal → String)
    (rounds : List (Option RespData × Response)) :
    ∀ s : AppState, s.awaiting = [.loadProjects] →
      (deliverAll toLocaleString (roundAnswers rounds) s).awaiting = [.loadProjects] ∧
      requestsTo listUrl (deliverAll toLocaleString (roundAnswers rounds) s).sent
        = requestsTo listUrl s.sent + rounds.length ∧
      requestsTo refreshUrl (deliverAll toLocaleString (roundAnswers rounds) s).sent
        = requestsTo refreshUrl s.sent + rounds.length := by
  induction rounds with
  | nil => intro s h; exact ⟨h, rfl, rfl⟩
  | cons br rest ih =>
    intro s h
    obtain ⟨body, refreshAnswer⟩ := br
    obtain ⟨ha, hl, hr⟩ := deliver_round toLocaleString body refreshAnswer s h
    obtain ⟨ia, il, ir⟩ := ih _ ha
    have hunf : deliverAll toLocaleString (roundAnswers ((body, refreshAnswer) :: rest)) s
        = deliverAll toLocaleString (roundAnswers rest)
            (step toLocaleString (.deliver 0 refreshAnswer)
              (step toLocaleString (.deliver 0 (.http 401 body)) s)) := by
      simp [deliverAll, run, roundAnswers]
    rw [hunf]
    refine ⟨ia, ?_, ?_⟩
    · rw [il, hl, List.length_cons]; omega
    · rw [ir, hr, List.length_cons]; omega

theorem deliverAll_append (toLocaleString : JSVal → String) (xs ys : List Response)
    (s : AppState) :
    deliverAll toLocaleString (xs ++ ys) s
      = deliverAll toLocaleString ys (deliverAll toLocaleString xs s) := by
  simp [deliverAll, run, List.foldl_append]

theorem step_deliver_loadProjects (toLocaleString : JSVal → String) (r : Response)
    (t : AppState) (h : t.awaiting = [.loadProjects]) :
    step toLocaleString (.deliver 0 r) t
      = loadProjectsResume toLocaleString r { t with awaiting := [] } := by
  simp [step, h, resume]

/-- C1 (counterexample): a session whose list request is answered 401 twice, each
refresh succeeding, and then 200. The one call of `loadProjects` ends only after three
list requests and two refresh requests. -/
theorem loadProjects_two_refreshes :
    (deliverAll (fun _ => "") twoExpiriesAnswers
      (loadProjects { accessToken := .str "a1", refreshToken := .str "r" })).awaiting = [] ∧
    requestsTo refreshUrl (deliverAll (fun _ => "") twoExpiriesAnswers
      (loadProjects { accessToken := .str "a1", refreshToken := .str "r" })).sent = 2 ∧
    requestsTo listUrl (deliverAll (fun _ => "") twoExpiriesAnswers
      (loadProjects { accessToken := .str "a1", refreshToken := .str "r" })).sent = 3 := by
  decide

/-- C1 (amended): one call of `loadProjects`, made while nothing else is awaited, sends
one refresh request for every 401 answer to its list request and then sends the list
request again, whether or not the refresh succeeded. As long as every list request is
answered 401 the call is still awaiting an answer: after `n` such rounds it has sent
`n + 1` list requests and `n` refresh requests. It ends at the first list request whose
answer is not a 401 (another status, or no answer), without a further request. -/
theorem loadProjects_refresh_per_401 (toLocaleString : JSVal → String) (s : AppState)
    (rounds : List (Option RespData × Response)) (final : Response)
    (h0 : s.awaiting = []) (hfinal : ∀ body, final ≠ .http 401 body) :
    ((deliverAll toLocaleString (roundAnswers rounds) (loadProjects s)).awaiting
        = [.loadProjects] ∧
      requestsTo listUrl (deliverAll toLocaleString (roundAnswers rounds) (loadProjects s)).sent
        = requestsTo listUrl s.sent + rounds.length + 1 ∧
      requestsTo refreshUrl
          (deliverAll toLocaleString (roundAnswers rounds) (loadProjects s)).sent
        = requestsTo refreshUrl s.sent + rounds.length) ∧
    ((deliverAll toLocaleString (roundAnswers rounds ++ [final]) (loadProjects s)).awaiting
        = [] ∧
      requestsTo listUrl
          (deliverAll toLocaleString (roundAnswers rounds ++ [final]) (loadProjects s)).sent
        = requestsTo listUrl s.sent + rounds.length + 1 ∧
      requestsTo refreshUrl
          (deliverAll toLocaleString (roundAnswers rounds ++ [final]) (loadProjects s)).sent
        = requestsTo refreshUrl s.sent + rounds.length) := by
  have hstart : (loadProjects s).awaiting = [.loadProjects] := by
    simp [loadProjects, fetchStart, h0]
  have hl0 : requestsTo listUrl (loadProjects s).sent = requestsTo listUrl s.sent + 1 := by
    simp [loadProjects, fetchStart, requestsTo_append, loadProjectsRequest, listUrl]
  have hr0 : requestsTo refreshUrl (loadProjects s).sent = requestsTo refreshUrl s.sent := by
    simp only [loadProjects, fetchStart, requestsTo_append, loadProjectsRequest]
    have : ¬ (API_URL ++ "/projects/" = refreshUrl) := listUrl_ne_refreshUrl
    simp [this]
  obtain ⟨ha, hl, hr⟩ := deliverAll_rounds toLocaleString rounds _ hstart
  refine ⟨⟨ha, by rw [hl, hl0]; omega, by rw [hr, hr0]⟩, ?_⟩
  rw [deliverAll_append]
  have hlast : deliverAll toLocaleString [final]
      (deliverAll toLocaleString (roundAnswers rounds) (loadProjects s))
      = loadProjectsResume toLocaleString final
          { deliverAll toLocaleString (roundAnswers rounds) (loadProjects s) with
            awaiting := [] } :=
    step_deliver_loadProjects toLocaleString final _ ha
  rw [hlast]
  obtain ⟨fa, fs⟩ := loadProjectsResume_final toLocaleString final
    { deliverAll toLocaleString (roundAnswers rounds) (loadProjects s) with awaiting := [] }
    hfinal
  rw [fa, fs]
  exact ⟨rfl, by rw [hl, hl0]; omega, by rw [hr, hr0]⟩

/-- C1 (witness): an authenticated page, one round (401, refresh answered 200) and a
final answer 200 with an empty project list. -/
theorem loadProjects_refresh_per_401_witness :
    (deliverAll (fun _ => "")
      (roundAnswers [(none, .http 200 (some { accessToken := .str "a2" }))]
        ++ [.http 200 (some { projects := some [] })])
      (loadProjects { accessToken := .str "a1", refreshToken := .str "r" })).awaiting = [] ∧
    requestsTo refreshUrl (deliverAll (fun _ => "")
      (roundAnswers [(none, .http 200 (some { accessToken := .str "a2" }))]
        ++ [.http 200 (some { projects := some [] })])
      (loadProjects { accessToken := .str "a1", refreshToken := .str "r" })).sent = 1 :=
  have h := (loadProjects_refresh_per_401 (fun _ => "")
    { accessToken := .str "a1", refreshToken := .str "r" }
    [(none, .http 200 (some { accessToken := .str "a2" }))]
    (.http 200 (some { projects := some [] })) rfl (by simp)).2
  ⟨h.1, h.2.2⟩

/-! ## Refresh and login -/

theorem getItem_setItem_same (st : Storage) (key value : String) :
    (st.setItem key value).getItem key = some value := by
  simp [Storage.setItem, Storage.getItem]

theorem getItem_removeItem_other (st : Storage) (key other : String) (h : other ≠ key) :
    (st.removeItem key).getItem other = st.getItem other := by
  unfold Storage.removeItem Storage.getItem
  rw [List.find?_filter]
  congr 2
  funext kv
  by_cases h2 : kv.1 = other
  · simp [h2, h]
  · simp [h2]

theorem getItem_removeItem_same (st : Storage) (key : String) :
    (st.removeItem key).getItem key = none := by
  unfold Storage.removeItem Storage.getItem
  rw [List.find?_filter]
  simp

theorem getItem_setItem_other (st : Storage) (key value other : String) (h : other ≠ key) :
    (st.setItem key value).getItem other = st.getItem other := by
  have h2 : ¬ key = other := fun h3 => h h3.symm
  have := getItem_removeItem_other st key other h
  simp only [Storage.getItem] at this
  simp [Storage.setItem, Storage.getItem, List.find?_cons, h2, this]

theorem refreshAccessTokenResume_timer (r : Response) (s : AppState) :
    (refreshAccessTokenResume r s).autoRefreshInterval = s.autoRefreshInterval ∧
    (refreshAccessTokenResume r s).intervals = s.intervals := by
  unfold refreshAccessTokenResume
  split
  · exact ⟨rfl, rfl⟩
  · split
    · split <;> exact ⟨rfl, rfl⟩
    · exact ⟨rfl, rfl⟩

/-- C7 (the code at the failing input): a user logs in, the dashboard starts the poll
timer, the first list request is answered 401 and the refresh request is rejected.
Afterwards the session is cleared (the three variables are `null`, the storage holds
no key), but `autoRefreshInterval` still holds the timer, the timer is still alive, and
its next tick sends one more list request. -/
theorem refresh_failure_keeps_timer :
    (run (fun _ => "") forcedLogoutTrace (startup [])).accessToken = .null ∧
    (run (fun _ => "") forcedLogoutTrace (startup [])).refreshToken = .null ∧
    (run (fun _ => "") forcedLogoutTrace (startup [])).currentUser = .null ∧
    (run (fun _ => "") forcedLogoutTrace (startup [])).localStorage = [] ∧
    (run (fun _ => "") forcedLogoutTrace (startup [])).screen = .auth ∧
    (run (fun _ => "") forcedLogoutTrace (startup [])).autoRefreshInterval = some 1 ∧
    (run (fun _ => "") forcedLogoutTrace (startup [])).intervals = [1] ∧
    requestsTo listUrl (run (fun _ => "") (forcedLogoutTrace ++ [.tick 1]) (startup [])).sent
      = requestsTo listUrl (run (fun _ => "") forcedLogoutTrace (startup [])).sent + 1 := by
  decide

/-- C8: when the refresh request is answered 2xx with a readable body, afterwards the
variable `accessToken` is the access token of the answer and the storage key
'accessToken' holds its string form, which is the token itself when the token is a
string, while `refreshToken`, the storage key 'refreshToken' and `currentUser` are as
before. -/
theorem refresh_success_frame (s : AppState) (status : Nat) (data : RespData) (t : String)
    (hok : statusOk status = true) :
    (refreshAccessTokenResume (.http status (some data)) s).accessToken = data.accessToken ∧
    (refreshAccessTokenResume (.http status (some data)) s).localStorage.getItem "accessToken"
      = some data.accessToken.toString ∧
    (Tok.str t).toString = t ∧
    (refreshAccessTokenResume (.http status (some data)) s).refreshToken = s.refreshToken ∧
    (refreshAccessTokenResume (.http status (some data)) s).localStorage.getItem "refreshToken"
      = s.localStorage.getItem "refreshToken" ∧
    (refreshAccessTokenResume (.http status (some data)) s).currentUser = s.currentUser := by
  have e : refreshAccessTokenResume (.http status (some data)) s
      = { s with
          accessToken := data.accessToken
          localStorage := s.localStorage.setItem "accessToken" data.accessToken.toString } := by
    simp [refreshAccessTokenResume, hok]
  rw [e]
  exact ⟨rfl, getItem_setItem_same _ _ _, rfl, rfl,
    getItem_setItem_other _ _ _ _ (by decide), rfl⟩

/-- C8 (witness): a session with tokens 'a1' and 'r1' and an answer 200 carrying 'a2'. -/
theorem refresh_success_frame_witness :
    (refreshAccessTokenResume (.http 200 (some { accessToken := .str "a2" }))
      { accessToken := .str "a1", refreshToken := .str "r1", currentUser := .obj 1,
        localStorage := [("accessToken", "a1"), ("refreshToken", "r1")] }).accessToken
      = .str "a2" ∧
    (refreshAccessTokenResume (.http 200 (some { accessToken := .str "a2" }))
      { accessToken := .str "a1", refreshToken := .str "r1", currentUser := .obj 1,
        localStorage := [("accessToken", "a1"), ("refreshToken", "r1")] }).localStorage.getItem
        "accessToken" = some "a2" ∧
    (refreshAccessTokenResume (.http 200 (some { accessToken := .str "a2" }))
      { accessToken := .str "a1", refreshToken := .str "r1", currentUser := .obj 1,
        localStorage := [("accessToken", "a1"), ("refreshToken", "r1")] }).refreshToken
      = .str "r1" :=
  have h := refresh_success_frame
    { accessToken := .str "a1", refreshToken := .str "r1", currentUser := .obj 1,
      localStorage := [("accessToken", "a1"), ("refreshToken", "r1")] }
    200 { accessToken := .str "a2" } "a2" (by decide)
  ⟨h.1, h.2.1, h.2.2.2.1⟩

theorem step_deliver_last (toLocaleString : JSVal → String) (r : Response) (k : Pending)
    (s t : AppState) (h : t.awaiting = s.awaiting ++ [k]) :
    step toLocaleString (.deliver s.awaiting.length r) t
      = resume toLocaleString k r { t with awaiting := s.awaiting } := by
  simp [step, h, List.eraseIdx_append_of_length_le]

/-- C9: for every starting state, a login attempt whose request gets a non-2xx answer
or no answer leaves `accessToken`, `refreshToken`, `currentUser` and the whole of
`localStorage` as they were; the attempt is over and no timer was started. -/
theorem login_failure_frame (toLocaleString : JSVal → String) (s : AppState)
    (email password : String) (r : Response)
    (hr : r = .networkError ∨ ∃ status body, r = .http status body ∧ statusOk status = false) :
    (step toLocaleString (.deliver s.awaiting.length r)
      (step toLocaleString (.submitLogin email password) s)).accessToken = s.accessToken ∧
    (step toLocaleString (.deliver s.awaiting.length r)
      (step toLocaleString (.submitLogin email password) s)).refreshToken = s.refreshToken ∧
    (step toLocaleString (.deliver s.awaiting.length r)
      (step toLocaleString (.submitLogin email password) s)).currentUser = s.currentUser ∧
    (step toLocaleString (.deliver s.awaiting.length r)
      (step toLocaleString (.submitLogin email password) s)).localStorage = s.localStorage ∧
    (step toLocaleString (.deliver s.awaiting.length r)
      (step toLocaleString (.submitLogin email password) s)).awaiting = s.awaiting ∧
    (step toLocaleString (.deliver s.awaiting.length r)
      (step toLocaleString (.submitLogin email password) s)).intervals = s.intervals := by
  have h1 : (step toLocaleString (.submitLogin email password) s).awaiting
      = s.awaiting ++ [.handleLogin] := by
    simp [step, handleLogin, fetchStart, showMessage]
  rw [step_deliver_last toLocaleString r .handleLogin s _ h1]
  rcases hr with rfl | ⟨status, body, rfl, hok⟩
  · simp [resume, handleLoginResume, connectionError, showMessage, step, handleLogin,
      fetchStart]
  · cases body with
    | none =>
      simp [resume, handleLoginResume, connectionError, showMessage, step, handleLogin,
        fetchStart]
    | some data =>
      simp [resume, handleLoginResume, hok, showMessage, step, handleLogin, fetchStart]

/-- C9 (witness): no prior session, wrong credentials answered 401 with a message: the
session stays absent and the storage stays empty. -/
theorem login_failure_frame_witness :
    (step (fun _ => "")
      (.deliver 0 (.http 401 (some { error := .str "Credenciales inválidas" })))
      (step (fun _ => "") (.submitLogin "u@x.co" "bad") (startup []))).accessToken = .null ∧
    (step (fun _ => "")
      (.deliver 0 (.http 401 (some { error := .str "Credenciales inválidas" })))
      (step (fun _ => "") (.submitLogin "u@x.co" "bad") (startup []))).localStorage = [] :=
  have h := login_failure_frame (fun _ => "") (startup []) "u@x.co" "bad"
    (.http 401 (some { error := .str "Credenciales inválidas" }))
    (Or.inr ⟨401, _, rfl, by decide⟩)
  ⟨h.1, h.2.2.2.1⟩

/-! ## The session invariant -/

theorem inv_of_tokens_eq (s t : AppState) (ha : t.accessToken = s.accessToken)
    (hr : t.refreshToken = s.refreshToken) (h : sessionInvariant s = true) :
    sessionInvariant t = true := by
  simpa [sessionInvariant, ha, hr] using h

theorem showDashboard_tokens (s : AppState) :
    (showDashboard s).accessToken = s.accessToken ∧
    (showDashboard s).refreshToken = s.refreshToken := by
  unfold showDashboard
  cases h : s.autoRefreshInterval with
  | none => simp [loadProjects, fetchStart, h]
  | some id =>
    by_cases hid : id = 0 <;> simp [loadProjects, fetchStart, clearInterval, h, hid]

theorem inv_showAuth_clearSession (s : AppState) :
    sessionInvariant (showAuthSection (clearSession s)) = true := rfl

theorem inv_logoutFinally (s : AppState) : sessionInvariant (logoutFinally s) = true := by
  unfold logoutFinally
  rfl

theorem inv_verifyAndLoadSessionResume (r : Response) (s : AppState)
    (h : sessionInvariant s = true) : sessionInvariant (verifyAndLoadSessionResume r s) = true := by
  unfold verifyAndLoadSessionResume
  split
  · rfl
  · split
    · split
      · rfl
      · exact inv_of_tokens_eq _ _ (showDashboard_tokens _).1 (showDashboard_tokens _).2 h
    · rfl

theorem inv_handleLoginResume (r : Response) (s : AppState) (h : sessionInvariant s = true)
    (hd : documentedShape .handleLogin r = true) :
    sessionInvariant (handleLoginResume r s) = true := by
  unfold handleLoginResume
  split
  · exact h
  · exact h
  · rename_i status data
    by_cases hok : statusOk status = true
    · simp only [hok, if_true]
      have hp : data.accessToken.present = true ∧ data.refreshToken.present = true := by
        simpa [documentedShape, hok] using hd
      have e := showDashboard_tokens
        (showMessage (.str "¡Bienvenido! Sesión iniciada correctamente") "success"
          { s with
            accessToken := data.accessToken
            refreshToken := data.refreshToken
            currentUser := data.user
            localStorage :=
              (s.localStorage.setItem "accessToken" data.accessToken.toString).setItem
                "refreshToken" data.refreshToken.toString })
      simp only [sessionInvariant]
      rw [e.1, e.2]
      simp [showMessage, hp.1, hp.2]
    · simp only [hok]
      exact h

theorem inv_refreshAccessTokenResume (r : Response) (s : AppState)
    (hd : documentedShape .refreshAccessToken r = true)
    (hl : refreshWithoutSession s .refreshAccessToken r = false) :
    sessionInvariant (refreshAccessTokenResume r s) = true := by
  unfold refreshAccessTokenResume
  split
  · rfl
  · rename_i status body
    by_cases hok : statusOk status = true
    · simp only [hok, if_true]
      split
      · rfl
      · rename_i data
        have hp : data.accessToken.present = true := by
          simpa [documentedShape, hok] using hd
        have hq : s.refreshToken.present = true := by
          simpa [refreshWithoutSession, hok] using hl
        simp [sessionInvariant, hp, hq]
    · simp only [hok]
      rfl

theorem inv_loadProjectsResume (toLocaleString : JSVal → String) (r : Response)
    (s : AppState) (h : sessionInvariant s = true) :
    sessionInvariant (loadProjectsResume toLocaleString r s) = true := by
  refine inv_of_tokens_eq s _ ?_ ?_ h
  · unfold loadProjectsResume
    split
    · rfl
    · split
      · split
        · rfl
        · rename_i data
          cases hp : data.projects <;> cases hz : data.projectsLength0 <;>
            simp [hp, hz, loadProjectsCatch, showMessage]
      · split <;> rfl
  · unfold loadProjectsResume
    split
    · rfl
    · split
      · split
        · rfl
        · rename_i data
          cases hp : data.projects <;> cases hz : data.projectsLength0 <;>
            simp [hp, hz, loadProjectsCatch, showMessage]
      · split <;> rfl

theorem inv_handleSignupResume (r : Response) (s : AppState)
    (h : sessionInvariant s = true) : sessionInvariant (handleSignupResume r s) = true := by
  unfold handleSignupResume
  split
  · exact h
  · exact h
  · split <;> exact h

theorem inv_handleCreateProjectResume (r : Response) (s : AppState)
    (h : sessionInvariant s = true) :
    sessionInvariant (handleCreateProjectResume r s) = true := by
  unfold handleCreateProjectResume
  split
  · exact h
  · exact h
  · split <;> exact h

theorem inv_deleteProjectResume (r : Response) (s : AppState)
    (h : sessionInvariant s = true) : sessionInvariant (deleteProjectResume r s) = true := by
  unfold deleteProjectResume
  split
  · exact h
  · split
    · exact h
    · split <;> exact h

theorem inv_rebuildProjectResume (r : Response) (s : AppState)
    (h : sessionInvariant s = true) : sessionInvariant (rebuildProjectResume r s) = true := by
  unfold rebuildProjectResume
  split
  · exact h
  · split
    · exact h
    · split <;> exact h

theorem inv_resume (toLocaleString : JSVal → String) (k : Pending) (r : Response)
    (s : AppState) (h : sessionInvariant s = true) (hd : documentedShape k r = true)
    (hl : refreshWithoutSession s k r = false) :
    sessionInvariant (resume toLocaleString k r s) = true := by
  cases k
  · exact inv_verifyAndLoadSessionResume r s h
  · exact inv_handleLoginResume r s h hd
  · exact inv_handleSignupResume r s h
  · exact inv_logoutFinally s
  · exact inv_loadProjectsResume toLocaleString r s h
  · exact inv_handleCreateProjectResume r s h
  · exact inv_deleteProjectResume r s h
  · exact inv_rebuildProjectResume r s h
  · exact inv_of_tokens_eq (refreshAccessTokenResume r s) _ rfl rfl
      (inv_refreshAccessTokenResume r s hd hl)
  · exact h

theorem inv_step (toLocaleString : JSVal → String) (e : Event) (s : AppState)
    (h : sessionInvariant s = true) (hd : documentedEvent s e = true)
    (hl : refreshWithoutSessionEvent s e = false) :
    sessionInvariant (step toLocaleString e s) = true := by
  cases e with
  | submitLogin email password => exact h
  | submitSignup name email password confirm =>
    simp only [step, handleSignup]
    split <;> exact h
  | clickLogout =>
    simp only [step, logout]
    split
    · exact h
    · exact inv_logoutFinally s
  | tick id =>
    simp only [step]
    split <;> exact h
  | submitCreateProject nombre repo_url => exact h
  | clickDelete projectId projectName confirmed =>
    simp only [step, deleteProject]
    split <;> exact h
  | clickRebuild projectId projectName confirmed =>
    simp only [step, rebuildProject]
    split <;> exact h
  | clickLink containerName =>
    simp only [step, trackActivity]
    split <;> exact h
  | deliver i r =>
    simp only [step]
    cases hk : s.awaiting.get? i with
    | none => exact h
    | some k =>
      simp only [documentedEvent, hk] at hd
      simp only [refreshWithoutSessionEvent, hk] at hl
      exact inv_resume toLocaleString k r _ h hd hl

theorem inv_startup (storage : Storage) : sessionInvariant (startup storage) = true := by
  unfold startup domContentLoaded
  split
  · split <;> rfl
  · rfl

theorem inv_run (toLocaleString : JSVal → String) (es : List Event) :
    ∀ s : AppState, sessionInvariant s = true →
      documentedRun toLocaleString es s = true → noRefreshWithoutSession toLocaleString es s = true →
      sessionInvariant (run toLocaleString es s) = true := by
  induction es with
  | nil => intro s h _ _; exact h
  | cons e es ih =>
    intro s h hd hl
    simp only [documentedRun, Bool.and_eq_true] at hd
    simp only [noRefreshWithoutSession, Bool.and_eq_true, Bool.not_eq_true'] at hl
    exact ih _ (inv_step toLocaleString e s h hd.1 hl.1) hd.2 hl.2

theorem refresh_without_session_breaks (toLocaleString : JSVal → String) (s : AppState)
    (e : Event) (hd : documentedEvent s e = true)
    (hl : refreshWithoutSessionEvent s e = true) :
    sessionInvariant (step toLocaleString e s) = false := by
  cases e with
  | deliver i r =>
    cases hk : s.awaiting.get? i with
    | none =>
      simp only [refreshWithoutSessionEvent, hk] at hl
      exact absurd hl (by decide)
    | some k =>
      simp only [refreshWithoutSessionEvent, hk] at hl
      simp only [documentedEvent, hk] at hd
      simp only [step, hk]
      cases k <;> try (simp [refreshWithoutSession] at hl; done)
      cases r with
      | networkError => exact absurd hl (by simp [refreshWithoutSession])
      | http status body =>
        cases body with
        | none => exact absurd hl (by simp [refreshWithoutSession])
        | some data =>
          have hl2 : statusOk status = true ∧ s.refreshToken.present = false := by
            simpa [refreshWithoutSession] using hl
          have hp : data.accessToken.present = true := by
            simpa [documentedShape, hl2.1] using hd
          simp [resume, refreshAccessTokenResume, hl2.1, hl2.2, loadProjects,
            fetchStart, sessionInvariant, hp]
  | _ => exact absurd hl (by simp [refreshWithoutSessionEvent])

/-- C10 (counterexample): login; the first list request is answered 401, so a refresh
request leaves; the user logs out and the logout completes, clearing the session; then
the refresh request is answered 200 with a new access token. Every answer has the
documented shape, and in the end `accessToken` is there and `refreshToken` is not. The
same happens without any overlap when, after a forced logout, the retried list request
is answered 401 and the refresh request, sent without a refresh token, is answered
200. -/
theorem late_refresh_breaks_invariant :
    documentedRun (fun _ => "") lateRefreshTrace (startup []) = true ∧
    (run (fun _ => "") lateRefreshTrace (startup [])).accessToken = .str "a2" ∧
    (run (fun _ => "") lateRefreshTrace (startup [])).refreshToken = .null ∧
    sessionInvariant (run (fun _ => "") lateRefreshTrace (startup [])) = false ∧
    documentedRun (fun _ => "") tokenlessRefreshTrace (startup []) = true ∧
    (run (fun _ => "") tokenlessRefreshTrace (startup [])).accessToken = .str "a2" ∧
    (run (fun _ => "") tokenlessRefreshTrace (startup [])).refreshToken = .null ∧
    sessionInvariant (run (fun _ => "") tokenlessRefreshTrace (startup [])) = false := by
  decide

/-- C10 (amended): in every state reached from startup, with any stored tokens, by
any sequence of logins, signups, logouts, timer ticks, project actions and answers
arriving in any order, `accessToken` and `refreshToken` are both there or both not
there, provided that the success answers have the documented shape and that no 2xx
answer with a readable body to a refresh request is handled at a moment when
`refreshToken` is not there, whether the session was cleared while that refresh was
awaited or the refresh request was sent without a refresh token. -/
theorem session_invariant (toLocaleString : JSVal → String) (storage : Storage)
    (es : List Event)
    (hd : documentedRun toLocaleString es (startup storage) = true)
    (hl : noRefreshWithoutSession toLocaleString es (startup storage) = true) :
    sessionInvariant (run toLocaleString es (startup storage)) = true :=
  inv_run toLocaleString es _ (inv_startup storage) hd hl

/-- C10 (witness): login, a 401 on the list request, a successful refresh while the
session is there, then logout. -/
theorem session_invariant_witness :
    sessionInvariant (run (fun _ => "")
      [.submitLogin "u@x.co" "pw",
       .deliver 0 (.http 200 (some
         { accessToken := .str "a1", refreshToken := .str "r1", user := .obj 1 })),
       .deliver 0 (.http 401 none),
       .deliver 0 (.http 200 (some { accessToken := .str "a2" })),
       .clickLogout,
       .deliver 1 (.http 200 none)] (startup [])) = true :=
  session_invariant (fun _ => "") []
    [.submitLogin "u@x.co" "pw",
     .deliver 0 (.http 200 (some
       { accessToken := .str "a1", refreshToken := .str "r1", user := .obj 1 })),
     .deliver 0 (.http 401 none),
     .deliver 0 (.http 200 (some { accessToken := .str "a2" })),
     .clickLogout,
     .deliver 1 (.http 200 none)] (by decide) (by decide)

/-! ## Logout and session restore -/

theorem loggedOut_logoutFinally (s : AppState) (hpos : s.autoRefreshInterval ≠ some 0) :
    loggedOut (logoutFinally s) = true := by
  unfold logoutFinally
  cases h : s.autoRefreshInterval with
  | none =>
    simp [loggedOut, showMessage, showAuthSection, clearSession, h,
      getItem_removeItem_same, getItem_removeItem_other]
  | some id =>
    have hid : id ≠ 0 := fun h0 => hpos (by rw [h, h0])
    simp [loggedOut, showMessage, showAuthSection, clearSession, clearInterval, hid,
      getItem_removeItem_same, getItem_removeItem_other]

/-- C11: for every starting state (a timer id is a positive number) and every outcome
of the logout notification, answered 2xx, answered otherwise or not answered, after
`logout` has completed `accessToken`, `refreshToken` and `currentUser` are `null`, both
storage keys are removed, `autoRefreshInterval` is `null` and the timer it held is no
longer alive. The same holds when the rest of `logout` resumes in any later state. -/
theorem logout_clears_session (toLocaleString : JSVal → String) (s : AppState)
    (r : Response) (hpos : s.autoRefreshInterval ≠ some 0) :
    loggedOut (logoutToCompletion toLocaleString r s) = true ∧
    (∀ id, s.autoRefreshInterval = some id →
      id ∉ (logoutToCompletion toLocaleString r s).intervals) ∧
    loggedOut (logoutResume r s) = true := by
  have hfin : ∃ t : AppState, logoutToCompletion toLocaleString r s = logoutFinally t ∧
      t.autoRefreshInterval = s.autoRefreshInterval ∧ t.intervals = s.intervals := by
    unfold logoutToCompletion
    by_cases ht : s.accessToken.truthy = true
    · have h1 : (step toLocaleString .clickLogout s).awaiting = s.awaiting ++ [.logout] := by
        simp [step, logout, ht, fetchStart]
      rw [if_pos ht, step_deliver_last toLocaleString r .logout s _ h1]
      refine ⟨_, rfl, ?_, ?_⟩ <;> simp [step, logout, ht, fetchStart]
    · refine ⟨s, ?_, rfl, rfl⟩
      simp [step, logout, ht]
  obtain ⟨t, ht, hta, hti⟩ := hfin
  rw [ht]
  refine ⟨loggedOut_logoutFinally t (by rw [hta]; exact hpos), ?_,
    loggedOut_logoutFinally s hpos⟩
  intro id hid
  have hid0 : id ≠ 0 := fun h0 => hpos (by rw [hid, h0])
  simp [logoutFinally, hta, hid, hid0, showMessage, showAuthSection, clearSession,
    clearInterval]

/-- C11 (witness): the dashboard after a login, with its poll timer alive; the logout
notification gets no answer. -/
theorem logout_clears_session_witness :
    loggedOut (logoutToCompletion (fun _ => "") .networkError
      (run (fun _ => "") [.submitLogin "u@x.co" "pw", .deliver 0 loginAnswer] (startup [])))
      = true ∧
    (logoutToCompletion (fun _ => "") .networkError
      (run (fun _ => "") [.submitLogin "u@x.co" "pw", .deliver 0 loginAnswer]
        (startup []))).intervals = [] :=
  have h := logout_clears_session (fun _ => "")
    (run (fun _ => "") [.submitLogin "u@x.co" "pw", .deliver 0 loginAnswer] (startup []))
    .networkError (by decide)
  ⟨h.1, by decide⟩

theorem startup_with_tokens (storage : Storage) (a b : String)
    (ha : storage.getItem "accessToken" = some a) (hb : storage.getItem "refreshToken" = some b)
    (hane : a ≠ "") (hbne : b ≠ "") :
    startup storage
      = verifyAndLoadSession
          { localStorage := storage, accessToken := .str a, refreshToken := .str b } := by
  simp [startup, domContentLoaded, ha, hb, hane, hbne]

/-- C12: at startup with both tokens persisted (non-empty), the identity request is
sent. When it is answered 2xx with a readable body the tokens are kept, `currentUser`
is the user of that answer, the dashboard is shown and the storage is untouched; on
every other outcome (non-2xx answer, no answer, unreadable answer) the three variables
are `null`, both storage keys are removed and the login screen is shown. -/
theorem verify_session_outcomes (toLocaleString : JSVal → String) (storage : Storage)
    (a b : String) (ha : storage.getItem "accessToken" = some a)
    (hb : storage.getItem "refreshToken" = some b) (hane : a ≠ "") (hbne : b ≠ "")
    (r : Response) :
    (startup storage).awaiting = [.verifyAndLoadSession] ∧
    (startup storage).accessToken = .str a ∧ (startup storage).refreshToken = .str b ∧
    match r.readable with
    | some data =>
      (step toLocaleString (.deliver 0 r) (startup storage)).accessToken = .str a ∧
      (step toLocaleString (.deliver 0 r) (startup storage)).refreshToken = .str b ∧
      (step toLocaleString (.deliver 0 r) (startup storage)).currentUser = data.user ∧
      (step toLocaleString (.deliver 0 r) (startup storage)).screen = .dashboard ∧
      (step toLocaleString (.deliver 0 r) (startup storage)).localStorage = storage
    | none =>
      (step toLocaleString (.deliver 0 r) (startup storage)).accessToken = .null ∧
      (step toLocaleString (.deliver 0 r) (startup storage)).refreshToken = .null ∧
      (step toLocaleString (.deliver 0 r) (startup storage)).currentUser = .null ∧
      (step toLocaleString (.deliver 0 r) (startup storage)).localStorage.getItem
        "accessToken" = none ∧
      (step toLocaleString (.deliver 0 r) (startup storage)).localStorage.getItem
        "refreshToken" = none ∧
      (step toLocaleString (.deliver 0 r) (startup storage)).screen = .auth := by
  rw [startup_with_tokens storage a b ha hb hane hbne]
  refine ⟨rfl, rfl, rfl, ?_⟩
  have hstep : step toLocaleString (.deliver 0 r)
      (verifyAndLoadSession
        { localStorage := storage, accessToken := .str a, refreshToken := .str b })
      = verifyAndLoadSessionResume r
          { (verifyAndLoadSession
              { localStorage := storage, accessToken := .str a, refreshToken := .str b })
            with awaiting := [] } := by
    simp [step, verifyAndLoadSession, fetchStart, resume]
  rw [hstep]
  have hclear : ∀ t : AppState,
      (showAuthSection (clearSession t)).accessToken = .null ∧
      (showAuthSection (clearSession t)).refreshToken = .null ∧
      (showAuthSection (clearSession t)).currentUser = .null ∧
      (showAuthSection (clearSession t)).localStorage.getItem "accessToken" = none ∧
      (showAuthSection (clearSession t)).localStorage.getItem "refreshToken" = none ∧
      (showAuthSection (clearSession t)).screen = .auth := by
    intro t
    refine ⟨rfl, rfl, rfl, ?_, ?_, rfl⟩
    · simp [showAuthSection, clearSession, getItem_removeItem_same, getItem_removeItem_other]
    · simp [showAuthSection, clearSession, getItem_removeItem_same]
  cases r with
  | networkError => exact hclear _
  | http status body =>
    by_cases hok : statusOk status = true
    · cases body with
      | none =>
        simp only [Response.readable, hok, if_true, verifyAndLoadSessionResume]
        exact hclear _
      | some data =>
        simp only [Response.readable, hok, if_true, verifyAndLoadSessionResume]
        simp [showDashboard, loadProjects, fetchStart, verifyAndLoadSession]
    · simp only [Response.readable, hok, verifyAndLoadSessionResume]
      exact hclear _

/-- C12 (witness): stored tokens 'a1' and 'r1'; the identity request is answered 200
with a user, and, in a second run, 401. -/
theorem verify_session_outcomes_witness :
    (step (fun _ => "") (.deliver 0 (.http 200 (some { user := .obj 7 })))
      (startup [("accessToken", "a1"), ("refreshToken", "r1")])).currentUser = .obj 7 ∧
    (step (fun _ => "") (.deliver 0 (.http 401 none))
      (startup [("accessToken", "a1"), ("refreshToken", "r1")])).accessToken = .null :=
  ⟨(verify_session_outcomes (fun _ => "") [("accessToken", "a1"), ("refreshToken", "r1")]
      "a1" "r1" (by decide) (by decide) (by decide) (by decide)
      (.http 200 (some { user := .obj 7 }))).2.2.2.2.2.1,
   (verify_session_outcomes (fun _ => "") [("accessToken", "a1"), ("refreshToken", "r1")]
      "a1" "r1" (by decide) (by decide) (by decide) (by decide)
      (.http 401 none)).2.2.2.1⟩

/-! ## Polling -/

/-- C13 (counterexample): after a login the first list request is awaited; the poll
timer fires before the answer. The tick is not skipped: a second list request leaves
and two list fetches are awaited at once. -/
theorem tick_while_loading_sends_again :
    (run (fun _ => "") tickWhileLoadingTrace (startup [])).awaiting
      = [.loadProjects, .loadProjects] ∧
    requestsTo listUrl (run (fun _ => "") tickWhileLoadingTrace (startup [])).sent = 2 := by
  decide

/-- C13 (amended): every tick of a live poll timer starts a new list request, whether
or not an earlier list request is still awaited: the number of list fetches in flight
grows by one and one more list request leaves. -/
theorem tick_always_fetches (toLocaleString : JSVal → String) (s : AppState) (id : Nat)
    (h : id ∈ s.intervals) :
    (step toLocaleString (.tick id) s).awaiting = s.awaiting ++ [.loadProjects] ∧
    (step toLocaleString (.tick id) s).awaiting.count .loadProjects
      = s.awaiting.count .loadProjects + 1 ∧
    requestsTo listUrl (step toLocaleString (.tick id) s).sent
      = requestsTo listUrl s.sent + 1 := by
  have e : step toLocaleString (.tick id) s = loadProjects s := by simp [step, h]
  rw [e]
  refine ⟨rfl, ?_, ?_⟩
  · simp [loadProjects, fetchStart, List.count_append]
  · simp [loadProjects, fetchStart, requestsTo_append, loadProjectsRequest, listUrl]

/-- C13 (witness): the dashboard right after a login, its first list request still
awaited, and a tick of timer 1. -/
theorem tick_always_fetches_witness :
    (step (fun _ => "") (.tick 1)
      (run (fun _ => "") [.submitLogin "u@x.co" "pw", .deliver 0 loginAnswer]
        (startup []))).awaiting.count .loadProjects
      = (run (fun _ => "") [.submitLogin "u@x.co" "pw", .deliver 0 loginAnswer]
          (startup [])).awaiting.count .loadProjects + 1 :=
  (tick_always_fetches (fun _ => "")
    (run (fun _ => "") [.submitLogin "u@x.co" "pw", .deliver 0 loginAnswer] (startup []))
    1 (by decide)).2.1

/-- C14 (counterexample): the user logs out while the first list request is awaited.
When the logout has completed no timer is alive and the projects list is empty; the
list answer that arrives afterwards is applied and the projects list holds one
project. -/
theorem late_list_answer_changes_projects :
    (run (fun _ => "") logoutWhileLoadingTrace (startup [])).intervals = [] ∧
    (run (fun _ => "") logoutWhileLoadingTrace (startup [])).autoRefreshInterval = none ∧
    (run (fun _ => "") logoutWhileLoadingTrace (startup [])).accessToken = .null ∧
    (run (fun _ => "") logoutWhileLoadingTrace (startup [])).awaiting = [.loadProjects] ∧
    (run (fun _ => "") logoutWhileLoadingTrace (startup [])).projects = some [] ∧
    (run (fun _ => "") (logoutWhileLoadingTrace ++ [.deliver 0 lateListAnswer])
      (startup [])).projects
      = some [{ nombre := .str "web", status := .str "running" }] := by
  decide

theorem step_deliver_at (toLocaleString : JSVal → String) (t : AppState) (i : Nat)
    (k : Pending) (r : Response) (h : t.awaiting.get? i = some k) :
    step toLocaleString (.deliver i r) t
      = resume toLocaleString k r { t with awaiting := t.awaiting.eraseIdx i } := by
  simp only [step, h]

theorem loadProjectsResume_projects (toLocaleString : JSVal → String) (r : Response)
    (t : AppState) :
    (loadProjectsResume toLocaleString r t).projects
      = match r.readable with
        | none => t.projects
        | some data => data.projects := by
  cases r with
  | networkError => rfl
  | http status body =>
    unfold loadProjectsResume
    by_cases hok : statusOk status = true
    · cases body with
      | none => simp [Response.readable, hok, loadProjectsCatch, showMessage]
      | some data =>
        cases hp : data.projects <;> cases hz : data.projectsLength0 <;>
          simp [Response.readable, hok, hp, hz, loadProjectsCatch, showMessage]
    · by_cases h401 : status = 401
      · subst h401
        simp [Response.readable, statusOk, refreshAccessToken, fetchStart]
      · simp [Response.readable, hok, h401, showMessage]

/-- C14 (amended): a list answer that arrives after the poller was stopped is handled
like every other list answer, in whatever state the page is then: when it is a 2xx
answer with a readable body the projects list becomes the `projects` of that answer,
on every other answer the projects list stays as it was. -/
theorem list_answer_always_applied (toLocaleString : JSVal → String) (t : AppState)
    (i : Nat) (r : Response) (h : t.awaiting.get? i = some .loadProjects) :
    (step toLocaleString (.deliver i r) t).projects
      = match r.readable with
        | none => t.projects
        | some data => data.projects := by
  rw [step_deliver_at toLocaleString t i .loadProjects r h]
  exact loadProjectsResume_projects toLocaleString r _

/-- C14 (witness): the page after the logout has completed, the list request still
awaited, and a 401 as the late answer: the projects list stays empty. -/
theorem list_answer_always_applied_witness :
    (step (fun _ => "") (.deliver 0 (.http 401 none))
      (run (fun _ => "") logoutWhileLoadingTrace (startup []))).projects
      = (run (fun _ => "") logoutWhileLoadingTrace (startup [])).projects :=
  list_answer_always_applied (fun _ => "")
    (run (fun _ => "") logoutWhileLoadingTrace (startup [])) 0 (.http 401 none) (by decide)

/-- C15 (counterexample): the projects list holds one project; the next poll is
answered 200 by a body without `projects`, so rendering raises an error. The cycle is a
failure other than an authorization failure, and the projects list is no longer the
list of before: it is the missing value of the answer. -/
theorem render_error_replaces_projects :
    pollFailure (.http 200 (some {})) = true ∧
    (run (fun _ => "") (renderErrorTrace.take 4) (startup [])).projects
      = some [{ nombre := .str "web", status := .str "running" }] ∧
    (run (fun _ => "") renderErrorTrace (startup [])).projects = none := by
  decide

/-- A 2xx answer whose `projects` is the empty string is a render failure that changes
the page: `displayProjects` replaces the one card on screen by the empty-state banner
before `updateStats` throws, the variable `projects` no longer holds the list of before,
and the totals stay. -/
theorem zero_length_projects_shows_banner :
    pollFailure (.http 200 (some { projectsLength0 := true })) = true ∧
    (run (fun _ => "") (emptyStringProjectsTrace.take 4) (startup [])).projectsView
      = .cards [renderCard (fun _ => "") { nombre := .str "web", status := .str "running" }] ∧
    (run (fun _ => "") emptyStringProjectsTrace (startup [])).projectsView = .emptyState ∧
    (run (fun _ => "") emptyStringProjectsTrace (startup [])).projects = none ∧
    (run (fun _ => "") emptyStringProjectsTrace (startup [])).stats = ⟨1, 1, 0⟩ := by
  decide

/-- C15 (amended): for every poll cycle of `loadProjects` that ends in a failure other
than an authorization failure, the cycle sends no refresh request and no further list
request, it is over, and the totals on screen are the ones of before. When the failure
is a non-2xx answer other than 401, no answer, or a body that cannot be read, the
projects list and the cards on screen after the cycle equal those before it. -/
theorem poll_failure_effects (toLocaleString : JSVal → String) (t : AppState) (i : Nat)
    (r : Response) (h : t.awaiting.get? i = some .loadProjects)
    (hf : pollFailure r = true) :
    (step toLocaleString (.deliver i r) t).sent = t.sent ∧
    (step toLocaleString (.deliver i r) t).awaiting = t.awaiting.eraseIdx i ∧
    (step toLocaleString (.deliver i r) t).stats = t.stats ∧
    (r.readable = none →
      (step toLocaleString (.deliver i r) t).projects = t.projects ∧
      (step toLocaleString (.deliver i r) t).projectsView = t.projectsView) := by
  refine ⟨?_, ?_, ?_, ?_⟩
  case refine_4 =>
    intro hr
    rw [step_deliver_at toLocaleString t i .loadProjects r h]
    cases r with
    | networkError => exact ⟨rfl, rfl⟩
    | http status body =>
      simp only [resume, loadProjectsResume]
      by_cases hok : statusOk status = true
      · have hb : body = none := by simpa [Response.readable, hok] using hr
        subst hb
        simp [hok, loadProjectsCatch, showMessage]
      · have h401 : status ≠ 401 := by simpa [pollFailure, hok] using hf
        simp [hok, h401, showMessage]
  all_goals
    rw [step_deliver_at toLocaleString t i .loadProjects r h]
    cases r with
    | networkError => rfl
    | http status body =>
      simp only [resume, loadProjectsResume]
      by_cases hok : statusOk status = true
      · cases body with
        | none => simp [hok, loadProjectsCatch, showMessage]
        | some data =>
          have hp : data.projects = none := by
            simpa [pollFailure, hok] using hf
          cases hz : data.projectsLength0 <;>
            simp [hok, hp, hz, loadProjectsCatch, showMessage]
      · have h401 : status ≠ 401 := by simpa [pollFailure, hok] using hf
        simp [hok, h401, showMessage]

/-- C15 (witness): the dashboard after a login, its first list request answered 500. -/
theorem poll_failure_effects_witness :
    (step (fun _ => "") (.deliver 0 (.http 500 none))
      (run (fun _ => "") [.submitLogin "u@x.co" "pw", .deliver 0 loginAnswer]
        (startup []))).projects = some [] ∧
    (step (fun _ => "") (.deliver 0 (.http 500 none))
      (run (fun _ => "") [.submitLogin "u@x.co" "pw", .deliver 0 loginAnswer]
        (startup []))).awaiting = [] :=
  have h := poll_failure_effects (fun _ => "")
    (run (fun _ => "") [.submitLogin "u@x.co" "pw", .deliver 0 loginAnswer] (startup []))
    0 (.http 500 none) (by decide) (by decide)
  ⟨(h.2.2.2 rfl).1.trans (by decide), h.2.1⟩

/-! ## Signup and the activity ping -/

/-- C18: for every starting state, every content of the signup form and every outcome
of the signup request, success included, `accessToken`, `refreshToken`, `currentUser`
and the whole of `localStorage` are the same after the form is submitted and after the
answer has been handled as they were before. -/
theorem signup_never_authenticates (toLocaleString : JSVal → String) (s : AppState)
    (name email password confirm : String) (r : Response) :
    ((step toLocaleString (.submitSignup name email password confirm) s).accessToken
        = s.accessToken ∧
      (step toLocaleString (.submitSignup name email password confirm) s).refreshToken
        = s.refreshToken ∧
      (step toLocaleString (.submitSignup name email password confirm) s).currentUser
        = s.currentUser ∧
      (step toLocaleString (.submitSignup name email password confirm) s).localStorage
        = s.localStorage) ∧
    ((step toLocaleString (.deliver s.awaiting.length r)
        (step toLocaleString (.submitSignup name email password confirm) s)).accessToken
        = s.accessToken ∧
      (step toLocaleString (.deliver s.awaiting.length r)
        (step toLocaleString (.submitSignup name email password confirm) s)).refreshToken
        = s.refreshToken ∧
      (step toLocaleString (.deliver s.awaiting.length r)
        (step toLocaleString (.submitSignup name email password confirm) s)).currentUser
        = s.currentUser ∧
      (step toLocaleString (.deliver s.awaiting.length r)
        (step toLocaleString (.submitSignup name email password confirm) s)).localStorage
        = s.localStorage) := by
  by_cases hpw : password = confirm
  · have h0 : step toLocaleString (.submitSignup name email password confirm) s
        = fetchStart
            { url := API_URL ++ "/auth/signup", method := "POST", headers := [jsonContent],
              body := some (.signupBody email password name) }
            .handleSignup (showMessage (.str "Registrando usuario...") "success" s) := by
      simp [step, handleSignup, hpw]
    have h1 : (step toLocaleString (.submitSignup name email password confirm) s).awaiting
        = s.awaiting ++ [.handleSignup] := by
      rw [h0]; rfl
    rw [step_deliver_last toLocaleString r .handleSignup s _ h1, h0]
    refine ⟨⟨rfl, rfl, rfl, rfl⟩, ?_⟩
    cases r with
    | networkError => exact ⟨rfl, rfl, rfl, rfl⟩
    | http status body =>
      cases body with
      | none => exact ⟨rfl, rfl, rfl, rfl⟩
      | some data =>
        simp only [resume, handleSignupResume]
        split <;> exact ⟨rfl, rfl, rfl, rfl⟩
  · have h0 : step toLocaleString (.submitSignup name email password confirm) s
        = showMessage (.str "Las contraseñas no coinciden") "error" s := by
      simp [step, handleSignup, hpw]
    have h2 : step toLocaleString (.deliver s.awaiting.length r)
        (showMessage (.str "Las contraseñas no coinciden") "error" s)
        = showMessage (.str "Las contraseñas no coinciden") "error" s := by
      simp [step, showMessage]
    rw [h0, h2]
    exact ⟨⟨rfl, rfl, rfl, rfl⟩, ⟨rfl, rfl, rfl, rfl⟩⟩

theorem trackActivity_url (containerName : String) (s : AppState) (h : containerName ≠ "") :
    (trackActivity containerName s).sent
      = s.sent ++ [{ url := API_URL ++ "/api/projects/activity/" ++ containerName,
                     method := "POST", headers := [jsonContent] }] := by
  simp [trackActivity, h, fetchStart]

/-- C20 (the code at the failing input): `trackActivity('web1')` sends its POST to
'http://localhost:5000/api/api/projects/activity/web1', which is not the API base
followed by '/projects/activity/web1'; the list request of `loadProjects` goes to the
API base followed by '/projects/'. For an empty name nothing is sent. -/
theorem trackActivity_doubles_api_segment :
    ((trackActivity "web1" {}).sent.map fun req => (req.method, req.url))
      = [("POST", "http://localhost:5000/api/api/projects/activity/web1")] ∧
    "http://localhost:5000/api/api/projects/activity/web1"
      ≠ API_URL ++ "/projects/activity/" ++ "web1" ∧
    (loadProjectsRequest {}).url = API_URL ++ "/projects/" ∧
    (trackActivity "" {}).sent = [] := by
  decide

/-! ## The microservices dashboard -/

/-- C16 (counterexample): a user presses the delete button of a service and cancels the
confirmation dialog. The dialog is closed and `pendingAction` still holds the delete
action. -/
theorem cancel_keeps_pending_action :
    (Microservices.run Microservices.cancelDeleteTrace (Microservices.startup [])).modalShown
      = false ∧
    (Microservices.run Microservices.cancelDeleteTrace (Microservices.startup [])).pendingAction
      = some ⟨"delete", "svc1", "Filtro"⟩ := by
  decide

theorem ms_pending_refreshServicesResume (a : Microservices.Answer)
    (s : Microservices.State) :
    (Microservices.refreshServicesResume a s).pendingAction = s.pendingAction := by
  unfold Microservices.refreshServicesResume
  split
  · rfl
  · rfl
  · split
    · split <;> rfl
    · rfl

theorem ms_pending_showDashboard (s : Microservices.State) :
    (Microservices.showDashboard s).pendingAction = s.pendingAction := by
  unfold Microservices.showDashboard Microservices.startAutoRefresh
  cases h : s.refreshTimer with
  | none => simp [Microservices.refreshServices, Microservices.apiRequest, h]
  | some id =>
    by_cases hid : id = 0 <;>
      simp [Microservices.refreshServices, Microservices.apiRequest,
        Microservices.clearInterval, h, hid]

theorem ms_pending_handleLoginResume (email : String) (a : Microservices.Answer)
    (s : Microservices.State) :
    (Microservices.handleLoginResume email a s).pendingAction = s.pendingAction := by
  unfold Microservices.handleLoginResume
  show (Microservices.showLoading false _).pendingAction = _
  simp only [Microservices.showLoading]
  split
  · rfl
  · rfl
  · split
    · exact ms_pending_showDashboard _
    · rfl

theorem ms_pending_handleCreateServiceResume (name : String) (a : Microservices.Answer)
    (s : Microservices.State) :
    (Microservices.handleCreateServiceResume name a s).pendingAction = s.pendingAction := by
  unfold Microservices.handleCreateServiceResume
  simp only [Microservices.showLoading]
  split
  · rfl
  · rfl
  · split <;> rfl

/-- The run of `overlappingDeleteTrace`: after the dialog for the second service has
been cancelled `pendingAction` still holds that action, and the answer to the first
deletion, confirmed earlier, clears it. -/
theorem earlier_delete_clears_pending_action :
    (Microservices.run (Microservices.overlappingDeleteTrace.take 7)
      (Microservices.startup [])).pendingAction = some ⟨"delete", "svc2", "Suma"⟩ ∧
    (Microservices.run Microservices.overlappingDeleteTrace
      (Microservices.startup [])).pendingAction = none := by
  decide

/-- C16 (amended): after `executeDelete` has completed, with any outcome,
`pendingAction` is `null`: it is cleared at once when `executeDelete` returns before
sending the request, and otherwise when the answer has been handled. Confirming without
a valid pending action clears it too. Cancelling the dialog (`closeModal`) does not
change `pendingAction`. The only tasks that change it are a press of a delete button
(`deleteService` replaces it), a confirmation (`confirmAction`), and the handling of
the answer to a delete request that is still awaited, also one confirmed earlier for
another service. The variable holds one action at most. -/
theorem pending_action_lifecycle (s : Microservices.State) (serviceName : String)
    (a : Microservices.Answer) (e : Microservices.Event) :
    (Microservices.executeDeleteResume serviceName a s).pendingAction = none ∧
    ((Microservices.executeDelete s).pendingAction = none ∨
      ∃ name, (Microservices.executeDelete s).awaiting
        = s.awaiting ++ [.executeDelete name]) ∧
    ((Microservices.confirmAction s).pendingAction = none ∨
      ∃ name, (Microservices.confirmAction s).awaiting
        = s.awaiting ++ [.executeDelete name]) ∧
    (Microservices.closeModal s).pendingAction = s.pendingAction ∧
    ((Microservices.step e s).pendingAction = s.pendingAction ∨
      (∃ serviceId name, e = .clickDelete serviceId name) ∨
      e = .clickConfirm ∨
      ∃ i answer name, e = .deliver i answer ∧ s.awaiting.get? i = some (.executeDelete name)) := by
  have hexec : ∀ t : Microservices.State,
      (Microservices.executeDelete t).pendingAction = none ∨
      ∃ name, (Microservices.executeDelete t).awaiting = t.awaiting ++ [.executeDelete name] := by
    intro t
    unfold Microservices.executeDelete
    split
    · exact Or.inl rfl
    · split
      · exact Or.inl rfl
      · split
        · exact Or.inl rfl
        · exact Or.inr ⟨_, rfl⟩
  refine ⟨rfl, hexec s, ?_, rfl, ?_⟩
  · unfold Microservices.confirmAction
    split
    · split
      · exact hexec _
      · exact Or.inl rfl
    · exact Or.inl rfl
  · cases e with
    | submitLogin emailField password =>
      left
      simp only [Microservices.step, Microservices.handleLogin]
      split <;> rfl
    | submitCreate form =>
      left
      simp only [Microservices.step, Microservices.handleCreateService]
      split
      · rfl
      · split
        · rfl
        · split <;> rfl
    | clickLogout =>
      left
      simp only [Microservices.step, Microservices.logout]
      cases h : s.refreshTimer with
      | none => rfl
      | some id => by_cases hid : id = 0 <;> simp [hid, Microservices.showSuccess,
          Microservices.showMessage, Microservices.clearInterval]
    | tick id =>
      left
      simp only [Microservices.step, Microservices.autoRefreshTick]
      split
      · split <;> rfl
      · rfl
    | clickDelete serviceId name => exact Or.inr (Or.inl ⟨_, _, rfl⟩)
    | clickConfirm => exact Or.inr (Or.inr (Or.inl rfl))
    | clickCancel => exact Or.inl rfl
    | deliver i answer =>
      cases hk : s.awaiting.get? i with
      | none =>
        left
        simp only [Microservices.step, hk]
      | some k =>
        cases k with
        | handleLogin email =>
          left
          simp only [Microservices.step, hk, Microservices.resume]
          exact ms_pending_handleLoginResume email answer _
        | handleCreateService name =>
          left
          simp only [Microservices.step, hk, Microservices.resume]
          exact ms_pending_handleCreateServiceResume name answer _
        | executeDelete name => exact Or.inr (Or.inr (Or.inr ⟨_, _, name, rfl, hk⟩))
        | refreshServices =>
          left
          simp only [Microservices.step, hk, Microservices.resume]
          exact ms_pending_refreshServicesResume answer _

/-- C17 (counterexample): with `currentToken` set to 't1', a call of `apiRequest` whose
options carry a header of their own builds a request without an Authorization
header. -/
theorem own_headers_drop_authorization :
    (Microservices.apiRequestCall "/api/microservices"
      { method := some "POST", headers := some [("X-Trace", "1")] }
      { currentToken := .str "t1" }).header "Authorization" = none ∧
    (Microservices.apiRequestCall "/api/microservices" { method := some "POST" }
      { currentToken := .str "t1" }).header "Authorization" = some "Bearer t1" := by
  decide

/-- C17 (amended): for every endpoint and every options value without headers of its
own, the request built by `apiRequest` has the header 'Authorization: Bearer
<currentToken>' when `currentToken` is truthy (a non-empty string) and no Authorization
header otherwise; when the options carry headers of their own, the headers of the
request are exactly those. -/
theorem apiRequest_authorization (s : Microservices.State) (endpoint : String)
    (options : Microservices.Options) :
    (options.headers = none →
      (Microservices.apiRequestCall endpoint options s).header "Authorization"
        = if s.currentToken.truthy then some ("Bearer " ++ s.currentToken.toString)
          else none) ∧
    (∀ hs, options.headers = some hs →
      (Microservices.apiRequestCall endpoint options s).init.headers = some hs) := by
  constructor
  · intro h
    by_cases ht : s.currentToken.truthy = true <;>
      simp [Microservices.apiRequestCall, Microservices.defaultOptions,
        Microservices.Options.spread, Microservices.FetchCall.header, h, ht, List.find?_cons]
  · intro hs h
    simp [Microservices.apiRequestCall, Microservices.Options.spread, h]

/-- C17 (witness): the delete request of a logged-in user, and a request whose options
carry one header. -/
theorem apiRequest_authorization_witness :
    (Microservices.apiRequestCall "/api/microservices/svc1" { method := some "DELETE" }
      { currentToken := .str "t1" }).header "Authorization" = some "Bearer t1" ∧
    (Microservices.apiRequestCall "/api/microservices"
      { headers := some [("X-Trace", "1")] }
      { currentToken := .str "t1" }).init.headers = some [("X-Trace", "1")] :=
  ⟨(apiRequest_authorization { currentToken := .str "t1" } "/api/microservices/svc1"
      { method := some "DELETE" }).1 rfl,
   (apiRequest_authorization { currentToken := .str "t1" } "/api/microservices"
      { headers := some [("X-Trace", "1")] }).2 _ rfl⟩

theorem nameClass_iff (c : Char) :
    Microservices.nameClass c = true ↔
      (c.isAlpha = true ∨ c.isDigit = true ∨ c = '-' ∨ c = '_') := by
  simp only [Microservices.nameClass, Char.isAlpha, Char.isUpper, Char.isLower, Char.isDigit,
    Bool.or_eq_true, Bool.and_eq_true, decide_eq_true_eq, Char.le_def, ge_iff_le]
  have e1 : ('a' : Char).val = 97 := rfl
  have e2 : ('z' : Char).val = 122 := rfl
  have e3 : ('A' : Char).val = 65 := rfl
  have e4 : ('Z' : Char).val = 90 := rfl
  have e5 : ('0' : Char).val = 48 := rfl
  have e6 : ('9' : Char).val = 57 := rfl
  rw [e1, e2, e3, e4, e5, e6]
  tauto

theorem namePattern_iff (name : String) :
    Microservices.namePattern name = true ↔ Microservices.nameAllowed name := by
  have hne : name.data.isEmpty = false ↔ name ≠ "" := by
    cases name with
    | mk data =>
      cases data with
      | nil => simp
      | cons c cs => simp [String.ext_iff]
  simp only [Microservices.namePattern, Microservices.nameAllowed, Bool.and_eq_true,
    Bool.not_eq_true', List.all_eq_true, hne]
  constructor
  · rintro ⟨h1, h2⟩
    exact ⟨h1, fun c hc => (nameClass_iff c).mp (h2 c hc)⟩
  · rintro ⟨h1, h2⟩
    exact ⟨h1, fun c hc => (nameClass_iff c).mpr (h2 c hc)⟩

/-- C19: `handleSignup` sends no request when password and confirmation differ, and
`handleCreateService` sends a request only when the trimmed service name is non-empty
and consists solely of ASCII letters, digits, '-' and '_'; with any other name no
request leaves and nothing is awaited. -/
theorem invalid_input_sends_nothing (s : AppState) (name email password confirm : String)
    (ms : Microservices.State) (form : Microservices.CreateForm) :
    (password ≠ confirm →
      (handleSignup name email password confirm s).sent = s.sent ∧
      (handleSignup name email password confirm s).awaiting = s.awaiting) ∧
    ((Microservices.handleCreateService form ms).sent ≠ ms.sent →
      Microservices.nameAllowed (Microservices.jsTrim form.name)) ∧
    (¬ Microservices.nameAllowed (Microservices.jsTrim form.name) →
      (Microservices.handleCreateService form ms).sent = ms.sent ∧
      (Microservices.handleCreateService form ms).awaiting = ms.awaiting) := by
  have hbad : ¬ Microservices.nameAllowed (Microservices.jsTrim form.name) →
      (Microservices.handleCreateService form ms).sent = ms.sent ∧
      (Microservices.handleCreateService form ms).awaiting = ms.awaiting := by
    intro hn
    have hp : Microservices.namePattern (Microservices.jsTrim form.name) = false := by
      cases h : Microservices.namePattern (Microservices.jsTrim form.name)
      · rfl
      · exact absurd ((namePattern_iff _).mp h) hn
    unfold Microservices.handleCreateService
    split
    · exact ⟨rfl, rfl⟩
    · simp only [hp]
      split
      · exact ⟨rfl, rfl⟩
      · exact ⟨rfl, rfl⟩
  refine ⟨?_, ?_, hbad⟩
  · intro hpw
    simp [handleSignup, hpw, showMessage]
  · intro hsent
    by_contra hn
    exact hsent (hbad hn).1

/-- C19 (witness): mismatched passwords; the service names 'mi servicio' (a space
inside) and 'svc-1'. -/
theorem invalid_input_sends_nothing_witness :
    (handleSignup "Ana" "u@x.co" "pw1" "pw2" {}).sent = [] ∧
    (Microservices.handleCreateService { name := " mi servicio " } {}).sent = [] ∧
    Microservices.nameAllowed (Microservices.jsTrim " svc-1 ") :=
  ⟨((invalid_input_sends_nothing {} "Ana" "u@x.co" "pw1" "pw2" {} {}).1 (by decide)).1,
   ((invalid_input_sends_nothing {} "" "" "" "" {} { name := " mi servicio " }).2.2
      (by decide)).1,
   (invalid_input_sends_nothing {} "" "" "" "" {} { name := " svc-1 " }).2.1 (by decide)⟩

/-! ## The derived display, continued -/

theorem renderCard_congr (tl tl' : JSVal → String) (p : Project)
    (h : tl p.created_at = tl' p.created_at) : renderCard tl p = renderCard tl' p := by
  simp [renderCard, h]

theorem displayProjects_congr (tl tl' : JSVal → String) (S : List Project)
    (h : ∀ p ∈ S, tl p.created_at = tl' p.created_at) :
    displayProjects tl S = displayProjects tl' S := by
  unfold displayProjects
  split
  · rfl
  · congr 1
    exact List.map_congr_left fun p hp => renderCard_congr tl tl' p (h p hp)

theorem loadProjectsResume_view (toLocaleString : JSVal → String) (s : AppState)
    (status : Nat) (data : RespData) (S : List Project) (hok : statusOk status = true)
    (hp : data.projects = some S) :
    (loadProjectsResume toLocaleString (.http status (some data)) s).projectsView
      = displayProjects toLocaleString S ∧
    (loadProjectsResume toLocaleString (.http status (some data)) s).stats = updateStats S := by
  simp [loadProjectsResume, hok, hp]

/-- C21: the cards and the totals that `loadProjects` puts on the page are functions of
the project list of the answer alone, the host's date formatting apart: computed twice,
from any two states of the page and with date formatters that agree on the dates of the
list, they are identical, namely `displayProjects` and `updateStats` of that list. -/
theorem derivation_deterministic (tl tl' : JSVal → String) (S : List Project)
    (s1 s2 : AppState) (status : Nat) (data : RespData) (hok : statusOk status = true)
    (hp : data.projects = some S) (htl : ∀ p ∈ S, tl p.created_at = tl' p.created_at) :
    (loadProjectsResume tl (.http status (some data)) s1).projectsView
      = (loadProjectsResume tl' (.http status (some data)) s2).projectsView ∧
    (loadProjectsResume tl (.http status (some data)) s1).stats
      = (loadProjectsResume tl' (.http status (some data)) s2).stats ∧
    (loadProjectsResume tl (.http status (some data)) s1).projectsView
      = displayProjects tl S ∧
    (loadProjectsResume tl (.http status (some data)) s1).stats = updateStats S := by
  obtain ⟨v1, t1⟩ := loadProjectsResume_view tl s1 status data S hok hp
  obtain ⟨v2, t2⟩ := loadProjectsResume_view tl' s2 status data S hok hp
  exact ⟨by rw [v1, v2, displayProjects_congr tl tl' S htl], by rw [t1, t2], v1, t1⟩

/-- C21 (witness): one running project, rendered once on a fresh page and once on a
page after a login. -/
theorem derivation_deterministic_witness :
    (loadProjectsResume (fun _ => "6/11/2026") lateListAnswer {}).projectsView
      = (loadProjectsResume (fun _ => "6/11/2026") lateListAnswer
          (run (fun _ => "") [.submitLogin "u@x.co" "pw", .deliver 0 loginAnswer]
            (startup []))).projectsView :=
  (derivation_deterministic (fun _ => "6/11/2026") (fun _ => "6/11/2026")
    [{ nombre := .str "web", status := .str "running" }] {}
    (run (fun _ => "") [.submitLogin "u@x.co" "pw", .deliver 0 loginAnswer] (startup []))
    200 { projects := some [{ nombre := .str "web", status := .str "running" }] }
    (by decide) rfl (fun _ _ => rfl)).1

/-- C23 (counterexample): a project that has exited and has been idle for 25 minutes:
its card has no inactivity line and so no idle-shutdown warning. -/
theorem exited_project_has_no_warning :
    (renderCard (fun _ => "")
      { status := .str "exited", inactive_minutes := some 25 }).inactiveDisplay = none ∧
    (renderCard (fun _ => "")
      { status := .str "exited", inactive_minutes := some 25 }).hasIdleWarning = false := by
  constructor <;> rfl

/-- C23 (amended): for every project whose `inactive_minutes` exceeds 20, the card made
by `displayProjects` carries the idle-shutdown warning if and only if the effective
status of the project is 'running'; for every other status the card has no inactivity
line at all. -/
theorem idle_warning_only_when_running (toLocaleString : JSVal → String) (p : Project)
    (h : p.inactive_minutes.getD 0 > 20) :
    ((renderCard toLocaleString p).hasIdleWarning = true ↔ displayStatus p = .str "running") ∧
    (displayStatus p ≠ .str "running" → (renderCard toLocaleString p).inactiveDisplay = none) := by
  by_cases hs : displayStatus p = .str "running"
  · have hw : (renderCard toLocaleString p).inactiveDisplay
        = some ⟨inactiveMinutes p, inactiveWarning p⟩ := by
      simp [renderCard, inactiveDisplay, hs, JSVal.eqStr]
    refine ⟨?_, fun hn => absurd hs hn⟩
    simp [ProjectCard.hasIdleWarning, hw, inactiveWarning, inactiveMinutes_eq, h, hs]
  · have he : (displayStatus p).eqStr "running" = false := (eqStr_false_iff _ _).mpr hs
    have hw : (renderCard toLocaleString p).inactiveDisplay = none := by
      simp [renderCard, inactiveDisplay, he]
    refine ⟨?_, fun _ => hw⟩
    simp [ProjectCard.hasIdleWarning, hw, hs]

/-- C23 (witness): 25 idle minutes, once running and once pending. -/
theorem idle_warning_only_when_running_witness :
    (renderCard (fun _ => "")
      { status := .str "running", inactive_minutes := some 25 }).hasIdleWarning = true ∧
    (renderCard (fun _ => "")
      { status := .str "pending", inactive_minutes := some 25 }).inactiveDisplay = none :=
  ⟨(idle_warning_only_when_running (fun _ => "")
      { status := .str "running", inactive_minutes := some 25 } (by norm_num)).1.mpr
      (by decide),
   (idle_warning_only_when_running (fun _ => "")
      { status := .str "pending", inactive_minutes := some 25 } (by norm_num)).2
      (by decide)⟩

theorem statusClass_eq (v : JSVal) :
    statusClass v
      = if v = .str "running" then "status-running"
        else if v = .str "exited" ∨ v = .str "stopped" then "status-stopped"
        else if v = .str "building" then "status-building"
        else if v = .str "pending" then "status-pending"
        else "status-error" := by
  simp only [statusClass, Bool.or_eq_true, eqStr_iff, ite_self]

theorem statusClass_running_iff (v : JSVal) :
    statusClass v = "status-running" ↔ v = .str "running" := by
  rw [statusClass_eq]
  split_ifs with h1 h2 h3 h4 <;> simp [h1]

theorem statusClass_stopped_iff (v : JSVal) :
    statusClass v = "status-stopped" ↔ (v = .str "stopped" ∨ v = .str "exited") := by
  rw [statusClass_eq]
  split_ifs with h1 h2 h3 h4
  · subst h1; decide
  · simp [Or.comm, h2]
  · have : ¬ (v = .str "stopped" ∨ v = .str "exited") := fun h => h2 (Or.comm.mp h)
    simp [this]
  · have : ¬ (v = .str "stopped" ∨ v = .str "exited") := fun h => h2 (Or.comm.mp h)
    simp [this]
  · have : ¬ (v = .str "stopped" ∨ v = .str "exited") := fun h => h2 (Or.comm.mp h)
    simp [this]

theorem classCount_displayProjects (toLocaleString : JSVal → String) (cls : String)
    (S : List Project) :
    classCount cls (displayProjects toLocaleString S)
      = (S.filter fun p => decide (statusClass (displayStatus p) = cls)).length := by
  simp only [classCount, items_displayProjects, List.filter_map, List.length_map]
  rfl

/-- C25: for every project list, a project is counted as running by `updateStats`
exactly when `displayProjects` gives it the class 'status-running', and is counted as
stopped exactly when it gets the class 'status-stopped', so the two counts are the
numbers of cards of these classes; every status outside running, exited, stopped,
building and pending gets 'status-error' and is counted in neither. -/
theorem counts_match_classes (toLocaleString : JSVal → String) (S : List Project)
    (p : Project) :
    ((statsStatus p).eqStr "running" = true ↔
      (renderCard toLocaleString p).statusClass = "status-running") ∧
    (((statsStatus p).eqStr "stopped" || (statsStatus p).eqStr "exited") = true ↔
      (renderCard toLocaleString p).statusClass = "status-stopped") ∧
    (updateStats S).running = classCount "status-running" (displayProjects toLocaleString S) ∧
    (updateStats S).stopped = classCount "status-stopped" (displayProjects toLocaleString S) ∧
    ((displayStatus p ≠ .str "running" ∧ displayStatus p ≠ .str "exited" ∧
        displayStatus p ≠ .str "stopped" ∧ displayStatus p ≠ .str "building" ∧
        displayStatus p ≠ .str "pending") →
      (renderCard toLocaleString p).statusClass = "status-error" ∧
      (statsStatus p).eqStr "running" = false ∧
      ((statsStatus p).eqStr "stopped" || (statsStatus p).eqStr "exited") = false) := by
  have hrun : ∀ q : Project, ((statsStatus q).eqStr "running" = true ↔
      statusClass (displayStatus q) = "status-running") := by
    intro q
    rw [eqStr_iff, statusClass_running_iff]
    exact Iff.rfl
  have hstop : ∀ q : Project,
      (((statsStatus q).eqStr "stopped" || (statsStatus q).eqStr "exited") = true ↔
        statusClass (displayStatus q) = "status-stopped") := by
    intro q
    rw [Bool.or_eq_true, eqStr_iff, eqStr_iff, statusClass_stopped_iff]
    exact Iff.rfl
  refine ⟨hrun p, hstop p, ?_, ?_, ?_⟩
  · rw [classCount_displayProjects]
    simp only [updateStats]
    congr 1
    apply List.filter_congr
    intro q _
    rw [Bool.eq_iff_iff, decide_eq_true_eq]
    exact hrun q
  · rw [classCount_displayProjects]
    simp only [updateStats]
    congr 1
    apply List.filter_congr
    intro q _
    rw [Bool.eq_iff_iff, decide_eq_true_eq]
    exact hstop q
  · rintro ⟨h1, h2, h3, h4, h5⟩
    have hd : displayStatus p = statsStatus p := rfl
    refine ⟨?_, ?_, ?_⟩
    · show statusClass (displayStatus p) = "status-error"
      rw [statusClass_eq]
      simp [h1, h2, h3, h4, h5]
    · exact (eqStr_false_iff _ _).mpr (hd ▸ h1)
    · rw [Bool.or_eq_false_iff]
      exact ⟨(eqStr_false_iff _ _).mpr (hd ▸ h3), (eqStr_false_iff _ _).mpr (hd ▸ h2)⟩

/-- C25 (witness): a list with a running, a stopped, an exited and a not_found project. -/
theorem counts_match_classes_witness :
    (updateStats [{ status := .str "running" }, { status := .str "stopped" },
      { status := .str "exited" }, { status := .str "not_found" }]).stopped
      = classCount "status-stopped" (displayProjects (fun _ => "")
          [{ status := .str "running" }, { status := .str "stopped" },
            { status := .str "exited" }, { status := .str "not_found" }]) ∧
    (renderCard (fun _ => "") { status := .str "not_found" }).statusClass = "status-error" :=
  ⟨(counts_match_classes (fun _ => "")
      [{ status := .str "running" }, { status := .str "stopped" },
        { status := .str "exited" }, { status := .str "not_found" }] {}).2.2.2.1,
   ((counts_match_classes (fun _ => "") [] { status := .str "not_found" }).2.2.2.2
      (by decide)).1⟩

/-! ## The creation lock -/

theorem handleCreateServiceResume_releases (name : String) (a : Microservices.Answer)
    (s : Microservices.State) :
    (Microservices.handleCreateServiceResume name a s).isCreatingService = false := rfl

/-- C22 (the code at the failing input): a logged-in user submits the create form with
the name 'mi servicio'. The name is rejected, the invocation is over (nothing is
awaited), and `isCreatingService` is still true; the next submission, with the valid
name 'svc-1', is ignored and sends nothing. On a page where no submission was rejected
the same form sends the creation request. -/
theorem rejected_name_keeps_lock :
    (Microservices.run (Microservices.rejectedNameTrace.take 4)
      (Microservices.startup [])).isCreatingService = true ∧
    (Microservices.run (Microservices.rejectedNameTrace.take 4)
      (Microservices.startup [])).awaiting = [] ∧
    (Microservices.run Microservices.rejectedNameTrace (Microservices.startup [])).sent
      = (Microservices.run (Microservices.rejectedNameTrace.take 4)
          (Microservices.startup [])).sent ∧
    (Microservices.run Microservices.rejectedNameTrace
      (Microservices.startup [])).isCreatingService = true ∧
    (Microservices.handleCreateService { name := "svc-1" }
      (Microservices.run (Microservices.rejectedNameTrace.take 3)
        (Microservices.startup []))).sent.length
      = (Microservices.run (Microservices.rejectedNameTrace.take 3)
          (Microservices.startup [])).sent.length + 1 ∧
    (Microservices.handleCreateService { name := "" } {}).isCreatingService = true := by
  decide

/-! ## The poll timer -/

theorem timersOk_congr (s t : AppState) (hi : t.intervals = s.intervals)
    (ha : t.autoRefreshInterval = s.autoRefreshInterval) (h : timersOk s = true) :
    timersOk t = true := by
  simpa [timersOk, hi, ha] using h

theorem timersOk_length (s : AppState) (h : timersOk s = true) : s.intervals.length ≤ 1 := by
  unfold timersOk at h
  cases ha : s.autoRefreshInterval with
  | none => simp [ha] at h; simp [h]
  | some id => simp [ha] at h; simp [h.2]

theorem timersOk_showDashboard (s : AppState) (h : timersOk s = true) :
    timersOk (showDashboard s) = true ∧ (showDashboard s).intervals = [s.timerCount + 1] := by
  unfold timersOk at h
  unfold showDashboard
  cases ha : s.autoRefreshInterval with
  | none =>
    simp [ha] at h
    simp [timersOk, loadProjects, fetchStart, ha, h]
  | some id =>
    simp [ha] at h
    simp [timersOk, loadProjects, fetchStart, clearInterval, ha, h.1, h.2]

theorem timersOk_logoutFinally (s : AppState) (h : timersOk s = true) :
    timersOk (logoutFinally s) = true ∧ (logoutFinally s).intervals = [] := by
  unfold timersOk at h
  unfold logoutFinally
  cases ha : s.autoRefreshInterval with
  | none =>
    simp [ha] at h
    simp [timersOk, showMessage, showAuthSection, clearSession, ha, h]
  | some id =>
    simp [ha] at h
    simp [timersOk, showMessage, showAuthSection, clearSession, clearInterval, h.1, h.2]

theorem timersOk_clear (s : AppState) (h : timersOk s = true) :
    timersOk (showAuthSection (clearSession s)) = true :=
  timersOk_congr s _ rfl rfl h

theorem timersOk_verifyAndLoadSessionResume (r : Response) (s : AppState)
    (h : timersOk s = true) : timersOk (verifyAndLoadSessionResume r s) = true := by
  unfold verifyAndLoadSessionResume
  split
  · exact timersOk_clear s h
  · split
    · split
      · exact timersOk_clear s h
      · refine (timersOk_showDashboard _ ?_).1
        exact timersOk_congr s _ rfl rfl h
    · exact timersOk_clear s h

theorem timersOk_handleLoginResume (r : Response) (s : AppState) (h : timersOk s = true) :
    timersOk (handleLoginResume r s) = true := by
  unfold handleLoginResume
  split
  · exact timersOk_congr s _ rfl rfl h
  · exact timersOk_congr s _ rfl rfl h
  · split
    · refine (timersOk_showDashboard _ ?_).1
      exact timersOk_congr s _ rfl rfl h
    · exact timersOk_congr s _ rfl rfl h

theorem timersOk_refreshAccessTokenResume (r : Response) (s : AppState)
    (h : timersOk s = true) : timersOk (refreshAccessTokenResume r s) = true :=
  timersOk_congr s _ (refreshAccessTokenResume_timer r s).2
    (refreshAccessTokenResume_timer r s).1 h

theorem timersOk_loadProjectsResume (toLocaleString : JSVal → String) (r : Response)
    (s : AppState) (h : timersOk s = true) :
    timersOk (loadProjectsResume toLocaleString r s) = true := by
  refine timersOk_congr s _ ?_ ?_ h
  · unfold loadProjectsResume
    split
    · rfl
    · split
      · split
        · rfl
        · rename_i data
          cases hp : data.projects <;> cases hz : data.projectsLength0 <;>
            simp [hp, hz, loadProjectsCatch, showMessage]
      · split <;> rfl
  · unfold loadProjectsResume
    split
    · rfl
    · split
      · split
        · rfl
        · rename_i data
          cases hp : data.projects <;> cases hz : data.projectsLength0 <;>
            simp [hp, hz, loadProjectsCatch, showMessage]
      · split <;> rfl

theorem timersOk_handleSignupResume (r : Response) (s : AppState) (h : timersOk s = true) :
    timersOk (handleSignupResume r s) = true := by
  unfold handleSignupResume
  split
  · exact timersOk_congr s _ rfl rfl h
  · exact timersOk_congr s _ rfl rfl h
  · split <;> exact timersOk_congr s _ rfl rfl h

theorem timersOk_handleCreateProjectResume (r : Response) (s : AppState)
    (h : timersOk s = true) : timersOk (handleCreateProjectResume r s) = true := by
  unfold handleCreateProjectResume
  split
  · exact timersOk_congr s _ rfl rfl h
  · exact timersOk_congr s _ rfl rfl h
  · split <;> exact timersOk_congr s _ rfl rfl h

theorem timersOk_deleteProjectResume (r : Response) (s : AppState) (h : timersOk s = true) :
    timersOk (deleteProjectResume r s) = true := by
  unfold deleteProjectResume
  split
  · exact timersOk_congr s _ rfl rfl h
  · split
    · exact timersOk_congr s _ rfl rfl h
    · split <;> exact timersOk_congr s _ rfl rfl h

theorem timersOk_rebuildProjectResume (r : Response) (s : AppState) (h : timersOk s = true) :
    timersOk (rebuildProjectResume r s) = true := by
  unfold rebuildProjectResume
  split
  · exact timersOk_congr s _ rfl rfl h
  · split
    · exact timersOk_congr s _ rfl rfl h
    · split <;> exact timersOk_congr s _ rfl rfl h

theorem timersOk_resume (toLocaleString : JSVal → String) (k : Pending) (r : Response)
    (s : AppState) (h : timersOk s = true) :
    timersOk (resume toLocaleString k r s) = true := by
  cases k
  · exact timersOk_verifyAndLoadSessionResume r s h
  · exact timersOk_handleLoginResume r s h
  · exact timersOk_handleSignupResume r s h
  · exact (timersOk_logoutFinally s h).1
  · exact timersOk_loadProjectsResume toLocaleString r s h
  · exact timersOk_handleCreateProjectResume r s h
  · exact timersOk_deleteProjectResume r s h
  · exact timersOk_rebuildProjectResume r s h
  · exact timersOk_congr (refreshAccessTokenResume r s) _ rfl rfl
      (timersOk_refreshAccessTokenResume r s h)
  · exact h

theorem timersOk_step (toLocaleString : JSVal → String) (e : Event) (s : AppState)
    (h : timersOk s = true) : timersOk (step toLocaleString e s) = true := by
  cases e with
  | submitLogin email password => exact timersOk_congr s _ rfl rfl h
  | submitSignup name email password confirm =>
    simp only [step, handleSignup]
    split <;> exact timersOk_congr s _ rfl rfl h
  | clickLogout =>
    simp only [step, logout]
    split
    · exact timersOk_congr s _ rfl rfl h
    · exact (timersOk_logoutFinally s h).1
  | tick id =>
    simp only [step]
    split
    · exact timersOk_congr s _ rfl rfl h
    · exact h
  | submitCreateProject nombre repo_url => exact timersOk_congr s _ rfl rfl h
  | clickDelete projectId projectName confirmed =>
    simp only [step, deleteProject]
    split
    · exact h
    · exact timersOk_congr s _ rfl rfl h
  | clickRebuild projectId projectName confirmed =>
    simp only [step, rebuildProject]
    split
    · exact h
    · exact timersOk_congr s _ rfl rfl h
  | clickLink containerName =>
    simp only [step, trackActivity]
    split
    · exact h
    · exact timersOk_congr s _ rfl rfl h
  | deliver i r =>
    simp only [step]
    cases hk : s.awaiting.get? i with
    | none => exact h
    | some k => exact timersOk_resume toLocaleString k r _ (timersOk_congr s _ rfl rfl h)

theorem timersOk_startup (storage : Storage) : timersOk (startup storage) = true := by
  unfold startup domContentLoaded
  split
  · split <;> rfl
  · rfl

theorem timersOk_run (toLocaleString : JSVal → String) (es : List Event) :
    ∀ s : AppState, timersOk s = true → timersOk (run toLocaleString es s) = true := by
  induction es with
  | nil => intro s h; exact h
  | cons e es ih =>
    intro s h
    exact ih _ (timersOk_step toLocaleString e s h)

theorem ms_timersOk_congr (s t : Microservices.State) (hi : t.intervals = s.intervals)
    (hr : t.refreshTimer = s.refreshTimer) (h : Microservices.timersOk s = true) :
    Microservices.timersOk t = true := by
  simpa [Microservices.timersOk, hi, hr] using h

theorem ms_timersOk_length (s : Microservices.State) (h : Microservices.timersOk s = true) :
    s.intervals.length ≤ 1 := by
  unfold Microservices.timersOk at h
  cases ha : s.refreshTimer with
  | none => simp [ha] at h; simp [h]
  | some id => simp [ha] at h; simp [h.2]

theorem ms_timersOk_startAutoRefresh (s : Microservices.State)
    (h : Microservices.timersOk s = true) :
    Microservices.timersOk (Microservices.startAutoRefresh s) = true ∧
    (Microservices.startAutoRefresh s).intervals = [s.timerCount + 1] := by
  unfold Microservices.timersOk at h
  unfold Microservices.startAutoRefresh
  cases ha : s.refreshTimer with
  | none =>
    simp [ha] at h
    simp [Microservices.timersOk, h]
  | some id =>
    simp [ha] at h
    simp [Microservices.timersOk, Microservices.clearInterval, h.1, h.2]

theorem ms_timersOk_showDashboard (s : Microservices.State)
    (h : Microservices.timersOk s = true) :
    Microservices.timersOk (Microservices.showDashboard s) = true := by
  unfold Microservices.showDashboard
  refine (ms_timersOk_startAutoRefresh _ ?_).1
  exact ms_timersOk_congr s _ rfl rfl h

theorem ms_timersOk_logout (s : Microservices.State) (h : Microservices.timersOk s = true) :
    Microservices.timersOk (Microservices.logout s) = true ∧
    (Microservices.logout s).intervals = [] := by
  unfold Microservices.timersOk at h
  unfold Microservices.logout
  cases ha : s.refreshTimer with
  | none =>
    simp [ha] at h
    simp [Microservices.timersOk, Microservices.showSuccess, Microservices.showMessage, ha, h]
  | some id =>
    simp [ha] at h
    simp [Microservices.timersOk, Microservices.showSuccess, Microservices.showMessage,
      Microservices.clearInterval, ha, h.1, h.2]

theorem ms_timersOk_refreshServicesResume (a : Microservices.Answer) (s : Microservices.State)
    (h : Microservices.timersOk s = true) :
    Microservices.timersOk (Microservices.refreshServicesResume a s) = true := by
  unfold Microservices.refreshServicesResume
  split
  · exact ms_timersOk_congr s _ rfl rfl h
  · exact ms_timersOk_congr s _ rfl rfl h
  · split
    · split <;> exact ms_timersOk_congr s _ rfl rfl h
    · exact ms_timersOk_congr s _ rfl rfl h

theorem ms_timersOk_handleLoginResume (email : String) (a : Microservices.Answer)
    (s : Microservices.State) (h : Microservices.timersOk s = true) :
    Microservices.timersOk (Microservices.handleLoginResume email a s) = true := by
  unfold Microservices.handleLoginResume
  refine ms_timersOk_congr _ _ rfl rfl ?_
  split
  · exact ms_timersOk_congr s _ rfl rfl h
  · exact ms_timersOk_congr s _ rfl rfl h
  · split
    · refine ms_timersOk_showDashboard _ ?_
      exact ms_timersOk_congr s _ rfl rfl h
    · exact ms_timersOk_congr s _ rfl rfl h

theorem ms_timersOk_handleCreateServiceResume (name : String) (a : Microservices.Answer)
    (s : Microservices.State) (h : Microservices.timersOk s = true) :
    Microservices.timersOk (Microservices.handleCreateServiceResume name a s) = true := by
  unfold Microservices.handleCreateServiceResume
  refine ms_timersOk_congr _ _ rfl rfl ?_
  split
  · exact ms_timersOk_congr s _ rfl rfl h
  · exact ms_timersOk_congr s _ rfl rfl h
  · split <;> exact ms_timersOk_congr s _ rfl rfl h

theorem ms_timersOk_executeDeleteResume (serviceName : String) (a : Microservices.Answer)
    (s : Microservices.State) (h : Microservices.timersOk s = true) :
    Microservices.timersOk (Microservices.executeDeleteResume serviceName a s) = true := by
  unfold Microservices.executeDeleteResume
  refine ms_timersOk_congr _ _ rfl rfl ?_
  split
  · exact ms_timersOk_congr s _ rfl rfl h
  · split
    · exact ms_timersOk_congr s _ rfl rfl h
    · split
      · exact ms_timersOk_congr s _ rfl rfl h
      · split <;> exact ms_timersOk_congr s _ rfl rfl h

theorem ms_timersOk_executeDelete (s : Microservices.State)
    (h : Microservices.timersOk s = true) :
    Microservices.timersOk (Microservices.executeDelete s) = true := by
  unfold Microservices.executeDelete
  split
  · exact ms_timersOk_congr s _ rfl rfl h
  · split
    · exact ms_timersOk_congr s _ rfl rfl h
    · split <;> exact ms_timersOk_congr s _ rfl rfl h

theorem ms_timersOk_step (e : Microservices.Event) (s : Microservices.State)
    (h : Microservices.timersOk s = true) :
    Microservices.timersOk (Microservices.step e s) = true := by
  cases e with
  | submitLogin emailField password =>
    simp only [Microservices.step, Microservices.handleLogin]
    split <;> exact ms_timersOk_congr s _ rfl rfl h
  | submitCreate form =>
    simp only [Microservices.step, Microservices.handleCreateService]
    split
    · exact h
    · split
      · exact ms_timersOk_congr s _ rfl rfl h
      · split <;> exact ms_timersOk_congr s _ rfl rfl h
  | clickLogout => exact (ms_timersOk_logout s h).1
  | tick id =>
    simp only [Microservices.step, Microservices.autoRefreshTick]
    split
    · split
      · exact ms_timersOk_congr s _ rfl rfl h
      · exact h
    · exact h
  | clickDelete serviceId serviceName => exact ms_timersOk_congr s _ rfl rfl h
  | clickConfirm =>
    simp only [Microservices.step, Microservices.confirmAction]
    split
    · split
      · refine ms_timersOk_executeDelete _ ?_
        exact ms_timersOk_congr s _ rfl rfl h
      · exact ms_timersOk_congr s _ rfl rfl h
    · exact ms_timersOk_congr s _ rfl rfl h
  | clickCancel => exact ms_timersOk_congr s _ rfl rfl h
  | deliver i a =>
    simp only [Microservices.step]
    cases hk : s.awaiting.get? i with
    | none => exact h
    | some k =>
      have h' : Microservices.timersOk { s with awaiting := s.awaiting.eraseIdx i } = true :=
        ms_timersOk_congr s _ rfl rfl h
      cases k with
      | handleLogin email => exact ms_timersOk_handleLoginResume email a _ h'
      | handleCreateService name => exact ms_timersOk_handleCreateServiceResume name a _ h'
      | executeDelete serviceName => exact ms_timersOk_executeDeleteResume serviceName a _ h'
      | refreshServices => exact ms_timersOk_refreshServicesResume a _ h'

theorem ms_timersOk_startup (storage : Storage) :
    Microservices.timersOk (Microservices.startup storage) = true := by
  unfold Microservices.startup Microservices.domContentLoaded
  split
  · split
    · exact ms_timersOk_showDashboard _ rfl
    · rfl
  · rfl

theorem ms_timersOk_run (es : List Microservices.Event) :
    ∀ s : Microservices.State, Microservices.timersOk s = true →
      Microservices.timersOk (Microservices.run es s) = true := by
  induction es with
  | nil => intro s h; exact h
  | cons e es ih =>
    intro s h
    exact ih _ (ms_timersOk_step e s h)

theorem logoutToCompletion_eq (toLocaleString : JSVal → String) (r : Response)
    (s : AppState) :
    ∃ t : AppState, logoutToCompletion toLocaleString r s = logoutFinally t ∧
      t.autoRefreshInterval = s.autoRefreshInterval ∧ t.intervals = s.intervals := by
  unfold logoutToCompletion
  by_cases ht : s.accessToken.truthy = true
  · have h1 : (step toLocaleString .clickLogout s).awaiting = s.awaiting ++ [.logout] := by
      simp [step, logout, ht, fetchStart]
    rw [if_pos ht, step_deliver_last toLocaleString r .logout s _ h1]
    refine ⟨_, rfl, ?_, ?_⟩ <;> simp [step, logout, ht, fetchStart]
  · refine ⟨s, ?_, rfl, rfl⟩
    simp [step, logout, ht]

/-- C24: in every state that the page reaches from startup, by any sequence of tasks
(logins, session restores, logouts, ticks, answers in any order), at most one poll timer
is alive; `showDashboard` leaves exactly the timer it installs, the one installed
before being cancelled, and after `logout` has completed no timer is alive. The same
holds in the microservices dashboard for `startAutoRefresh` and `logout`. -/
theorem at_most_one_poll_timer (toLocaleString : JSVal → String) (storage : Storage)
    (es : List Event) (r : Response) (msStorage : Storage) (msEvents : List Microservices.Event) :
    (run toLocaleString es (startup storage)).intervals.length ≤ 1 ∧
    (showDashboard (run toLocaleString es (startup storage))).intervals
      = [(run toLocaleString es (startup storage)).timerCount + 1] ∧
    (logoutToCompletion toLocaleString r (run toLocaleString es (startup storage))).intervals
      = [] ∧
    (Microservices.run msEvents (Microservices.startup msStorage)).intervals.length ≤ 1 ∧
    (Microservices.startAutoRefresh
      (Microservices.run msEvents (Microservices.startup msStorage))).intervals
      = [(Microservices.run msEvents (Microservices.startup msStorage)).timerCount + 1] ∧
    (Microservices.logout
      (Microservices.run msEvents (Microservices.startup msStorage))).intervals = [] := by
  have h := timersOk_run toLocaleString es _ (timersOk_startup storage)
  have hm := ms_timersOk_run msEvents _ (ms_timersOk_startup msStorage)
  refine ⟨timersOk_length _ h, (timersOk_showDashboard _ h).2, ?_, ms_timersOk_length _ hm,
    (ms_timersOk_startAutoRefresh _ hm).2, (ms_timersOk_logout _ hm).2⟩
  obtain ⟨t, ht, hta, hti⟩ :=
    logoutToCompletion_eq toLocaleString r (run toLocaleString es (startup storage))
  rw [ht]
  exact (timersOk_logoutFinally t (timersOk_congr _ t hti hta h)).2

end HostRoble
